import Mathlib

/-
Verification development for the manga-image-analyzer pipeline (src/app.py).

The Python source is shallowly embedded as executable Lean definitions.
Conventions used throughout:
  * Python `bytes` values are `List Nat`; Python strings are `String`.
  * Python floats are modelled as exact rationals (`ℚ`); all the comparisons
    the program performs are on short decimal constants where rational and
    floating-point comparison agree.
  * JSON values (what `json.loads` produces and `json.dumps` consumes) are
    the inductive `JVal` below.
  * External effects (HTTP fetches, the model API, image decoding) are
    passed in as explicit function-valued environments, so every pipeline
    function is a pure function of its inputs plus the environment.
  * `hashlib.sha256` fingerprints are modelled by keeping the hashed
    payloads themselves (an injective fingerprint); hash collisions are
    ignored, as the program itself assumes.
-/

namespace MangaApp

/-! ## Small Python-flavoured string helpers -/

/-- Left brace character, written via its code point. -/
def lbrace : Char := Char.ofNat 123

/-- Right brace character, written via its code point. -/
def rbrace : Char := Char.ofNat 125

/-- ASCII lower-casing of a character, as Python `str.lower` acts on ASCII. -/
def lowerChar (c : Char) : Char :=
  if 'A' ≤ c ∧ c ≤ 'Z' then Char.ofNat (c.toNat + 32) else c

/-- ASCII lower-casing of a string (the URLs the program lowercases are ASCII). -/
def lowerStr (s : String) : String := String.mk (s.data.map lowerChar)

/-- Non-overlapping, left-to-right count of a pattern inside a character list,
mirroring Python `str.count`. The first argument is evaluation fuel. -/
def countOccAux (pat : List Char) : Nat → List Char → Nat
  | 0, _ => 0
  | _, [] => 0
  | fuel + 1, c :: rest =>
      if pat.isPrefixOf (c :: rest) then
        1 + countOccAux pat fuel ((c :: rest).drop pat.length)
      else
        countOccAux pat fuel rest

/-- Python `s.count(pat)` for nonempty `pat`. -/
def countOcc (pat s : String) : Nat := countOccAux pat.data s.data.length s.data

/-- Substring test (`pat in s` in Python), for nonempty patterns. -/
def isSubstr (pat s : String) : Bool :=
  decide (0 < countOcc pat s)

/-- Python `len` of a string counts code points. -/
def strLen (s : String) : Nat := s.data.length

/-- Split a character list at the first occurrence of a pattern:
returns the part before and the part after the pattern. -/
def splitOnFirstAux (pat : List Char) : Nat → List Char → Option (List Char × List Char)
  | 0, _ => none
  | _, [] => if pat = [] then some ([], []) else none
  | fuel + 1, c :: rest =>
      if pat.isPrefixOf (c :: rest) then
        some ([], (c :: rest).drop pat.length)
      else
        match splitOnFirstAux pat fuel rest with
        | some (pre, post) => some (c :: pre, post)
        | none => none

/-- Split a string at the first occurrence of a (nonempty) pattern. -/
def splitOnFirst (pat s : String) : Option (String × String) :=
  match splitOnFirstAux pat.data (s.data.length + 1) s.data with
  | some (pre, post) => some (String.mk pre, String.mk post)
  | none => none

/-- Python truthiness of an optional string (`None` and `""` are falsy). -/
def pyTruthyOS (o : Option String) : Bool :=
  match o with
  | none => false
  | some s => decide (s ≠ "")

/-- Python `a or b` on optional strings: first truthy operand, else the last. -/
def pyOrStr (a b : Option String) : Option String :=
  if pyTruthyOS a then a else b

/-- Python whitespace split (`str.split()` with no argument): splits on runs
of whitespace and drops empty fields. -/
def splitWs (s : String) : List String :=
  (s.split (fun c => c = ' ' ∨ c = '\n' ∨ c = '\t' ∨ c = '\r')).filter (fun t => t ≠ "")

/-- Drop all trailing `/` characters, as Python `path.rstrip("/")`. -/
def rstripSlash (s : String) : String :=
  String.mk (((s.data.reverse).dropWhile (fun c => c = '/')).reverse)

/-- Python `str.startswith`, expressed on the code-point lists. -/
def strStartsWith (s p : String) : Bool := p.data.isPrefixOf s.data

/-! ## JSON values

`JVal` models the Python values that flow through `json.loads`/`json.dumps`
in the program: `None`, booleans, numbers, strings, lists and dicts
(dicts as insertion-ordered association lists, as in Python 3.7+). -/

inductive JVal : Type where
  | null : JVal
  | bool : Bool → JVal
  | num : ℚ → JVal
  | str : String → JVal
  | arr : List JVal → JVal
  | obj : List (String × JVal) → JVal

/-! ## `json.dumps` model -/

/-- Pad a digit string on the left with zeros up to width `k`. -/
def padZeros (k : Nat) (s : String) : String :=
  String.mk (List.replicate (k - s.data.length) '0') ++ s

/-- Decimal rendering of a rational, modelling how Python renders the
numbers this program produces (integers, and short decimal fractions such
as confidence values). A rational whose denominator divides a power of ten
is printed with a decimal point; `q.den = 1` is printed as an integer. -/
def numRepr (q : ℚ) : String :=
  if q.den = 1 then toString q.num
  else
    match (List.range 28).find? (fun k => (q * (10 : ℚ) ^ k).den = 1) with
    | some k =>
        let scaled : Int := (q * (10 : ℚ) ^ k).num
        let a : Nat := scaled.natAbs
        let sign : String := if scaled < 0 then "-" else ""
        sign ++ toString (a / 10 ^ k) ++ "." ++ padZeros k (toString (a % 10 ^ k))
    | none => toString q.num ++ "/" ++ toString q.den

/-- JSON string escaping as `json.dumps(..., ensure_ascii=False)` performs it
for the characters that occur in this program's data. -/
def escapeJsonChar (c : Char) : String :=
  if c = '"' then "\\\""
  else if c = '\\' then "\\\\"
  else if c = '\n' then "\\n"
  else if c = '\t' then "\\t"
  else if c = '\r' then "\\r"
  else String.mk [c]

/-- Escape a whole string for JSON output. -/
def escapeJson (s : String) : String :=
  String.join (s.data.map escapeJsonChar)

/-- Fuel-indexed serialization core; the fuel bounds the nesting depth of
the value being serialized. -/
def dumpsF : Nat → JVal → String
  | _, .null => "null"
  | _, .bool b => if b then "true" else "false"
  | _, .num q => numRepr q
  | _, .str s => "\"" ++ escapeJson s ++ "\""
  | 0, .arr _ => ""
  | 0, .obj _ => ""
  | fuel + 1, .arr xs =>
      "[" ++ String.intercalate ", " (xs.map (fun v => dumpsF fuel v)) ++ "]"
  | fuel + 1, .obj kvs =>
      String.mk [lbrace] ++
        String.intercalate ", "
          (kvs.map (fun kv => "\"" ++ escapeJson kv.1 ++ "\": " ++ dumpsF fuel kv.2)) ++
        String.mk [rbrace]

/-- `json.dumps(v, ensure_ascii=False)` with Python's default separators
`", "` and `": "`.  The fuel bounds the nesting depth; CPython itself
raises `RecursionError` on values nested beyond its recursion limit, and
every value this program builds is orders of magnitude shallower than the
bound used here. -/
def dumps (v : JVal) : String := dumpsF 1000000 v

/-! ## `json.loads` model

A fuel-indexed recursive-descent JSON parser.  It models the observable
behaviour of Python's `json.loads` on the strings this program handles:
any parse failure makes the surrounding `_safe_json_loads` return `none`. -/

/-- JSON whitespace. -/
def jws (c : Char) : Bool := c = ' ' || c = '\n' || c = '\t' || c = '\r'

/-- Skip leading JSON whitespace. -/
def skipWs (cs : List Char) : List Char := cs.dropWhile jws

/-- Value of one hexadecimal digit of a `\uXXXX` escape. -/
def hexDigitVal (c : Char) : Option Nat :=
  if c.isDigit then some (c.toNat - 48)
  else if 'a' ≤ c ∧ c ≤ 'f' then some (c.toNat - 87)
  else if 'A' ≤ c ∧ c ≤ 'F' then some (c.toNat - 55)
  else none

/-- Parse the body of a JSON string (the opening quote already consumed);
returns the decoded characters and the input following the closing quote. -/
def parseStrAux : Nat → List Char → Option (List Char × List Char)
  | 0, _ => none
  | _, [] => none
  | fuel + 1, c :: rest =>
      if c = '"' then some ([], rest)
      else if c = '\\' then
        match rest with
        | [] => none
        | e :: rest2 =>
            if e = '"' then (parseStrAux fuel rest2).map (fun p => ('"' :: p.1, p.2))
            else if e = '\\' then (parseStrAux fuel rest2).map (fun p => ('\\' :: p.1, p.2))
            else if e = '/' then (parseStrAux fuel rest2).map (fun p => ('/' :: p.1, p.2))
            else if e = 'n' then (parseStrAux fuel rest2).map (fun p => ('\n' :: p.1, p.2))
            else if e = 't' then (parseStrAux fuel rest2).map (fun p => ('\t' :: p.1, p.2))
            else if e = 'r' then (parseStrAux fuel rest2).map (fun p => ('\r' :: p.1, p.2))
            else if e = 'b' then (parseStrAux fuel rest2).map (fun p => (Char.ofNat 8 :: p.1, p.2))
            else if e = 'f' then (parseStrAux fuel rest2).map (fun p => (Char.ofNat 12 :: p.1, p.2))
            else if e = 'u' then
              match rest2 with
              | h1 :: h2 :: h3 :: h4 :: rest3 =>
                  match hexDigitVal h1, hexDigitVal h2, hexDigitVal h3, hexDigitVal h4 with
                  | some a, some b, some c3, some d =>
                      (parseStrAux fuel rest3).map
                        (fun p => (Char.ofNat (((a * 16 + b) * 16 + c3) * 16 + d) :: p.1, p.2))
                  | _, _, _, _ => none
              | _ => none
            else none
      else (parseStrAux fuel rest).map (fun p => (c :: p.1, p.2))

/-- Leading decimal digits of a character list, with the remainder. -/
def takeDigits (cs : List Char) : List Char × List Char :=
  (cs.takeWhile Char.isDigit, cs.dropWhile Char.isDigit)

/-- Value of a digit string (most significant digit first). -/
def digitsToNat (ds : List Char) : Nat :=
  ds.foldl (fun a c => a * 10 + (c.toNat - 48)) 0

/-- Parse a JSON number into an exact rational. -/
def parseNumber (cs : List Char) : Option (ℚ × List Char) :=
  let (neg, cs1) : Bool × List Char :=
    match cs with
    | '-' :: tl => (true, tl)
    | _ => (false, cs)
  let (ip, cs2) := takeDigits cs1
  if ip = [] then none
  else
    let intPart : ℚ := (digitsToNat ip : ℚ)
    let (fracPart, cs3) :=
      match cs2 with
      | '.' :: r =>
          let (fd, r2) := takeDigits r
          if fd = [] then ((none : Option ℚ), cs2)
          else (some ((digitsToNat fd : ℚ) / (10 : ℚ) ^ fd.length), r2)
      | _ => (none, cs2)
    match cs2, fracPart with
    | '.' :: _, none => none
    | _, _ =>
      let mant : ℚ := intPart + fracPart.getD 0
      let expRes : Option (Int × List Char) :=
        match cs3 with
        | c :: r =>
            if c = 'e' ∨ c = 'E' then
              let (esign, r1) :=
                match r with
                | '-' :: rr => ((-1 : Int), rr)
                | '+' :: rr => ((1 : Int), rr)
                | _ => ((1 : Int), r)
              let (ed, r2) := takeDigits r1
              if ed = [] then none else some (esign * (digitsToNat ed : Int), r2)
            else some (0, cs3)
        | [] => some (0, cs3)
      match expRes with
      | none => none
      | some (ex, rest) =>
          let v : ℚ := mant * (10 : ℚ) ^ ex
          some ((if neg then -v else v), rest)

mutual

/-- Parse one JSON value, returning it with the unconsumed remainder. -/
def parseVal : Nat → List Char → Option (JVal × List Char)
  | 0, _ => none
  | fuel + 1, cs =>
      match skipWs cs with
      | [] => none
      | c :: rest =>
          if c = lbrace then parseObjItems fuel rest
          else if c = '[' then parseArrItems fuel rest
          else if c = '"' then
            match parseStrAux (rest.length + 1) rest with
            | some (s, r) => some (JVal.str (String.mk s), r)
            | none => none
          else if ['n', 'u', 'l', 'l'].isPrefixOf (c :: rest) then
            some (JVal.null, (c :: rest).drop 4)
          else if ['t', 'r', 'u', 'e'].isPrefixOf (c :: rest) then
            some (JVal.bool true, (c :: rest).drop 4)
          else if ['f', 'a', 'l', 's', 'e'].isPrefixOf (c :: rest) then
            some (JVal.bool false, (c :: rest).drop 5)
          else
            match parseNumber (c :: rest) with
            | some (q, r) => some (JVal.num q, r)
            | none => none

/-- Parse the items of an array, the opening `[` already consumed. -/
def parseArrItems : Nat → List Char → Option (JVal × List Char)
  | 0, _ => none
  | fuel + 1, cs =>
      match skipWs cs with
      | ']' :: r => some (JVal.arr [], r)
      | cs' =>
          match parseVal fuel cs' with
          | some (v, r) => parseArrRest fuel [v] r
          | none => none

/-- Parse `, item`* `]`, accumulating items already parsed (in reverse). -/
def parseArrRest : Nat → List JVal → List Char → Option (JVal × List Char)
  | 0, _, _ => none
  | fuel + 1, acc, cs =>
      match skipWs cs with
      | ']' :: r => some (JVal.arr acc.reverse, r)
      | ',' :: r =>
          match parseVal fuel r with
          | some (v, r2) => parseArrRest fuel (v :: acc) r2
          | none => none
      | _ => none

/-- Parse the entries of an object, the opening brace already consumed. -/
def parseObjItems : Nat → List Char → Option (JVal × List Char)
  | 0, _ => none
  | fuel + 1, cs =>
      match skipWs cs with
      | c :: r =>
          if c = rbrace then some (JVal.obj [], r)
          else if c = '"' then
            match parseStrAux (r.length + 1) r with
            | some (k, r2) =>
                match skipWs r2 with
                | ':' :: r3 =>
                    match parseVal fuel r3 with
                    | some (v, r4) => parseObjRest fuel [(String.mk k, v)] r4
                    | none => none
                | _ => none
            | none => none
          else none
      | [] => none

/-- Parse `, "key": value`* and the closing brace, accumulating entries. -/
def parseObjRest : Nat → List (String × JVal) → List Char → Option (JVal × List Char)
  | 0, _, _ => none
  | fuel + 1, acc, cs =>
      match skipWs cs with
      | c :: r =>
          if c = rbrace then some (JVal.obj acc.reverse, r)
          else if c = ',' then
            match skipWs r with
            | '"' :: r1 =>
                match parseStrAux (r1.length + 1) r1 with
                | some (k, r2) =>
                    match skipWs r2 with
                    | ':' :: r3 =>
                        match parseVal fuel r3 with
                        | some (v, r4) => parseObjRest fuel ((String.mk k, v) :: acc) r4
                        | none => none
                    | _ => none
                | none => none
            | _ => none
          else none
      | [] => none

end

/-- Modelled from Python's `json.loads`: parse a complete JSON document,
allowing only trailing whitespace. -/
def json_loads (s : String) : Option JVal :=
  match parseVal (2 * s.data.length + 8) s.data with
  | some (v, rest) => if skipWs rest = [] then some v else none
  | none => none

/-- `_safe_json_loads`: `json.loads` with every exception turned into `None`. -/
def _safe_json_loads (s : String) : Option JVal := json_loads s

/-- `_extract_json_block`: cut the text from the first `{` to the last `}`
(inclusive); `None` when the text is empty or no such block exists. -/
def _extract_json_block (text : String) : Option String :=
  if text = "" then none
  else
    let cs := text.data
    match cs.findIdx? (fun c => c = lbrace), cs.reverse.findIdx? (fun c => c = rbrace) with
    | some s, some rrev =>
        let e := cs.length - 1 - rrev
        if e ≤ s then none
        else some (String.mk ((cs.drop s).take (e - s + 1)))
    | _, _ => none

/-! ## Image records

Python passes image metadata around as dicts that gain keys as they move
through the pipeline (`url`/`alt`, then `page`/`episode`, then the filter's
`data`/`send_data`/`width`/`height`/`size`).  `Img` is that dict, with the
later keys optional. -/

structure Img where
  url : String
  alt : String
  episode : Option Nat
  page : Option Nat
  data : Option (List Nat)
  send_data : Option (List Nat)
  width : Option Nat
  height : Option Nat
  size : Option Nat
deriving DecidableEq

instance : Inhabited Img := ⟨⟨"", "", none, none, none, none, none, none, none⟩⟩

/-- A fresh `{"url": u, "alt": a}` candidate dict. -/
def mkCand (u a : String) : Img := ⟨u, a, none, none, none, none, none, none, none⟩

/-- `img["episode"] = ep; img["page"] = pg` as applied during traversal. -/
def Img.tag (i : Img) (ep pg : Nat) : Img :=
  ⟨i.url, i.alt, some ep, some pg, i.data, i.send_data, i.width, i.height, i.size⟩

/-! ## Image candidate extraction (`get_page_images`, src/app.py 315-418)

The HTTP fetch, HTML parsing and content-region selection are abstracted:
the function below receives the list of `<img>` elements of the selected
content region and performs the per-element source resolution, filtering
and deduplication of lines 369-418. -/

/-- An `<img>` element: its attribute map. -/
structure ImgTag where
  attrs : List (String × String)

/-- `img.get(k)`: `None` when the attribute is absent. -/
def ImgTag.get (t : ImgTag) (k : String) : Option String :=
  (t.attrs.find? (fun kv => kv.1 = k)).map (fun kv => kv.2)

/-- `img.get(k, d)`. -/
def ImgTag.getAttrD (t : ImgTag) (k d : String) : String := (t.get k).getD d

/-- Lines 377-384 of src/app.py.  Because a Python conditional expression
binds looser than `or`, the trailing `... if img.get("srcset") else None`
captures the whole `or`-chain: the chain is only consulted when the element
has a truthy `srcset` attribute, and every other element resolves to
`None`. -/
def resolveSrc (img : ImgTag) : Option String :=
  if pyTruthyOS (img.get "srcset") then
    pyOrStr (img.get "src")
      (pyOrStr (img.get "data-src")
        (pyOrStr (img.get "data-lazy-src")
          (pyOrStr (img.get "data-original")
            (pyOrStr (img.get "data-full-url")
              ((splitWs (img.getAttrD "srcset" "")).head?)))))
  else none

/-- Modelled from the spec: "resolve a source URL from a priority-ordered
list of attributes (direct source, lazy-load source variants, first URL of
a responsive source set)" — the same priority chain, without the
operator-precedence slip of `resolveSrc`. -/
def resolveSrcSpec (img : ImgTag) : Option String :=
  pyOrStr (img.get "src")
    (pyOrStr (img.get "data-src")
      (pyOrStr (img.get "data-lazy-src")
        (pyOrStr (img.get "data-original")
          (pyOrStr (img.get "data-full-url")
            (if pyTruthyOS (img.get "srcset") then
              (splitWs (img.getAttrD "srcset" "")).head?
            else none)))))

/-- Modelled from `urllib.parse.urljoin`, simplified to the URL shapes the
program exercises: absolute references pass through; root-relative and
relative references are resolved against the base URL's host / directory.
Dot-segment normalization is not modelled. -/
def urljoinM (base src : String) : String :=
  if isSubstr "://" src then src
  else
    match splitOnFirst "://" base with
    | some (scheme, rest) =>
        let host := String.mk (rest.data.takeWhile (fun c => c ≠ '/'))
        if strStartsWith src "/" then scheme ++ "://" ++ host ++ src
        else
          let path := String.mk (rest.data.dropWhile (fun c => c ≠ '/'))
          let dir := String.mk ((path.data.reverse.dropWhile (fun c => c ≠ '/')).reverse)
          scheme ++ "://" ++ host ++ (if dir = "" then "/" else dir) ++ src
    | none => src

/-- The decorative-asset deny list of src/app.py lines 369-374. -/
def skip_patterns : List String :=
  ["icon", "logo", "avatar", "emoji", "button",
   "banner", "advertisement", "widget",
   "gravatar", "favicon", "sprite", "pixel",
   "tracking", "analytics", "1x1"]

/-- Recognized image file extensions (src/app.py line 394). -/
def img_extensions : List String := [".jpg", ".jpeg", ".png", ".gif", ".webp"]

/-- The per-element body of the extraction loop (src/app.py lines 376-408):
resolve a source, skip data URIs and deny-listed URLs, keep URLs with an
image extension or an upload/image path segment. -/
def pageCandidate (pageUrl : String) (img : ImgTag) : Option Img :=
  let src := resolveSrc img
  if ¬ pyTruthyOS src then none
  else
    let s := src.getD ""
    if strStartsWith s "data:" then none
    else
      let img_url := urljoinM pageUrl s
      let lower := lowerStr img_url
      let has_img_ext := img_extensions.any (fun e => isSubstr e lower)
      if skip_patterns.any (fun p => isSubstr p lower) then none
      else
        let alt_text := img.getAttrD "alt" ""
        if has_img_ext || isSubstr "/uploads/" img_url || isSubstr "/images/" img_url then
          some (mkCand img_url alt_text)
        else none

/-- Keep the first occurrence of each URL, given the URLs already seen. -/
def dedupByUrlAux (seen : List String) : List Img → List Img
  | [] => []
  | x :: xs =>
      if x.url ∈ seen then dedupByUrlAux seen xs
      else x :: dedupByUrlAux (x.url :: seen) xs

/-- First-seen URL deduplication (src/app.py lines 410-417). -/
def dedupByUrl (l : List Img) : List Img := dedupByUrlAux [] l

/-- `get_page_images` on the `<img>` elements of the selected content
region: per-element candidate extraction followed by first-seen URL
deduplication. -/
def get_page_images (pageUrl : String) (tags : List ImgTag) : List Img :=
  dedupByUrl (tags.filterMap (pageCandidate pageUrl))

/-! ## Pagination ranking (`get_pagination_urls`, src/app.py 227-312) -/

/-- Modelled from `urllib.parse.urlparse(u).path`: drop the scheme and
authority, cut at the query or fragment. -/
def urlPathOf (u : String) : String :=
  let afterHost : List Char :=
    match splitOnFirst "://" u with
    | some (_, rest) => rest.data.dropWhile (fun c => c ≠ '/')
    | none => u.data
  String.mk (afterHost.takeWhile (fun c => c ≠ '?' ∧ c ≠ '#'))

/-- `str.isdigit` on ASCII digit strings: nonempty and all digits. -/
def isDigits (s : String) : Bool := s ≠ "" && s.data.all Char.isDigit

/-- Python `int()` on a digit string (leading zeros allowed). -/
def parseDigits (s : String) : Nat := digitsToNat s.data

/-- `extract_page_num` (src/app.py lines 293-303): rank 1 for the base
path, the integer suffix for `basePath/<digits>`, sentinel 999 otherwise. -/
def extract_page_num (base_path : String) (u : String) : Nat :=
  let path := rstripSlash (urlPathOf u)
  if path = base_path then 1
  else if strStartsWith path (base_path ++ "/") then
    let suffix := String.mk (path.data.drop (base_path.data.length + 1))
    if isDigits suffix then parseDigits suffix else 999
  else 999

/-- Stable insertion into a key-sorted list: the new element goes before
the first element whose key is not smaller. -/
def insertByKey (key : α → Nat) (x : α) : List α → List α
  | [] => [x]
  | y :: ys => if key y < key x then y :: insertByKey key x ys else x :: y :: ys

/-- Stable ascending sort by a natural-number key, modelling Python's
stable `list.sort(key=...)`. -/
def sortByKey (key : α → Nat) : List α → List α
  | [] => []
  | x :: xs => insertByKey key x (sortByKey key xs)

/-- The base path of a page URL (src/app.py line 290). -/
def basePathOf (u : String) : String := rstripSlash (urlPathOf u)

/-- `urls.sort(key=extract_page_num)` (src/app.py line 305), with the base
path taken from the page URL as in line 290. -/
def sortPaginationUrls (baseUrl : String) (urls : List String) : List String :=
  sortByKey (extract_page_num (basePathOf baseUrl)) urls

/-! ## Episode traversal (src/app.py 459-581)

`Site` abstracts the network: `fetch u` is the observable result of
fetching and scanning one page (`get_page_images` candidates plus the
`get_next_episode_url` result for that page's soup), `none` modelling a
failed fetch; `pagination u` is the `get_pagination_urls` result computed
from the first page's soup. -/

structure PageView where
  images : List Img
  next : Option String

structure Site where
  fetch : String → Option PageView
  pagination : String → List String

/-- Merge one page's images into the accumulator, skipping seen URLs and
tagging kept images with episode and page numbers (src/app.py 511-532). -/
def addPageImages (ep pageIdx : Nat) : List Img → List String → List Img →
    (List String × List Img)
  | [], seen, acc => (seen, acc)
  | i :: rest, seen, acc =>
      if i.url ∈ seen then addPageImages ep pageIdx rest seen acc
      else addPageImages ep pageIdx rest (i.url :: seen) (acc ++ [i.tag ep pageIdx])

/-- The additional-pages loop of `get_episode_images` (src/app.py 520-536):
fetch each further page, merge its images, and pick up a "next episode"
link when none has been found yet. -/
def epPagesLoop (site : Site) (ep : Nat) : List String → Nat → List String →
    List Img → Option String → (List Img × Option String)
  | [], _, _, acc, next => (acc, next)
  | u :: rest, i, seen, acc, next =>
      match site.fetch u with
      | none => epPagesLoop site ep rest (i + 1) seen acc next
      | some pv =>
          let sa := addPageImages ep i pv.images seen acc
          let next' := if next.isNone then pv.next else next
          epPagesLoop site ep rest (i + 1) sa.1 sa.2 next'

/-- `get_episode_images` (src/app.py 487-541): one episode's images over
all its pagination pages, URL-deduplicated in first-seen order, plus the
"next episode" URL if any page exposed one. -/
def get_episode_images (site : Site) (url : String) (episode_num : Nat) :
    List Img × Option String :=
  match site.fetch url with
  | none => ([], none)
  | some pv =>
      let next0 := pv.next
      let page_urls := site.pagination url
      let sa := addPageImages episode_num 1 pv.images [] []
      epPagesLoop site episode_num (page_urls.drop 1) 2 sa.1 sa.2 next0

/-- The raw tagged discovery stream of the additional pages, before URL
deduplication. -/
def pagesStream (site : Site) (ep : Nat) : List String → Nat → List Img
  | [], _ => []
  | u :: rest, i =>
      (match site.fetch u with
       | none => []
       | some pv => pv.images.map (fun x => x.tag ep i)) ++ pagesStream site ep rest (i + 1)

/-- The raw tagged discovery stream of one whole episode: every page's
images in fetch order, before URL deduplication. -/
def episodeStream (site : Site) (url : String) (ep : Nat) : List Img :=
  match site.fetch url with
  | none => []
  | some pv =>
      (pv.images.map (fun i => i.tag ep 1)) ++
        pagesStream site ep ((site.pagination url).drop 1) 2

/-- The episode loop of `get_multiple_episodes_images` (src/app.py
548-576).  The first argument is the remaining iteration budget of
`for episode in range(1, num_episodes + 1)`; the final `Nat` is the number
of episodes actually processed. -/
def episodesLoop (site : Site) (n : Nat) : Nat → Nat → Option String →
    List Img → Nat → (List Img × Nat)
  | 0, _, _, acc, processed => (acc, processed)
  | rem + 1, ep, cur, acc, processed =>
      if pyTruthyOS cur then
        let r := get_episode_images site (cur.getD "") ep
        let acc' := acc ++ r.1
        if ¬ pyTruthyOS r.2 ∧ ep < n then (acc', processed + 1)
        else episodesLoop site n rem (ep + 1) r.2 acc' (processed + 1)
      else (acc, processed)

/-- `get_multiple_episodes_images` (src/app.py 544-581): walk up to
`num_episodes` episodes following "next episode" links, concatenating each
episode's image list.  Also returns how many episodes were processed. -/
def get_multiple_episodes_images (site : Site) (url : String)
    (num_episodes : Nat) : List Img × Nat :=
  episodesLoop site num_episodes num_episodes 1 (some url) [] 0

/-! ## Content-image filtering (`filter_manga_images`, src/app.py 600-663)

`FilterEnv` abstracts the per-run effects: `download` is the cached
download for the run's fixed referer, `decode` is `PIL.Image.open` plus
`.size` (`none` = decode exception), `preprocess` is
`preprocess_image_bytes` (`none` = preprocessing exception). -/

structure FilterEnv where
  download : String → Option (List Nat)
  decode : List Nat → Option (Nat × Nat)
  preprocess : List Nat → Option (List Nat)

/-- Attach the filter's result fields (src/app.py 646-653). -/
def Img.withData (i : Img) (d sd : List Nat) (w h : Nat) : Img :=
  ⟨i.url, i.alt, i.episode, i.page, some d, some sd, some w, some h, some d.length⟩

/-- The per-candidate body of `filter_manga_images` (src/app.py 611-661):
`none` means the candidate is skipped (a `continue` in the source). -/
def filter_step (env : FilterEnv) (min_size : Nat) (img : Img) : Option Img :=
  match env.download img.url with
  | none => none
  | some img_data =>
      if img_data = [] then none
      else if img_data.length < min_size then none
      else
        match env.decode img_data with
        | none => none
        | some wh =>
            let aspect_ratio : ℚ :=
              if 0 < wh.2 then (wh.1 : ℚ) / (wh.2 : ℚ) else 0
            if 3 < aspect_ratio then none
            else if wh.1 < 200 ∨ wh.2 < 200 then none
            else
              match env.preprocess img_data with
              | none => none
              | some send_data => some (img.withData img_data send_data wh.1 wh.2)

/-- `filter_manga_images`: apply `filter_step` to each candidate in order,
keeping the survivors. -/
def filter_manga_images (env : FilterEnv) (min_size : Nat)
    (images : List Img) : List Img :=
  images.filterMap (filter_step env min_size)

/-! ## LLM call layer (src/app.py 672-812)

The external model API is an explicit oracle: model id, content blocks,
max tokens and temperature to either an exception (`Except.error` with the
exception text) or the response text plus usage.  The session cache
(`st.session_state["llm_cache"]`) is threaded explicitly.  `hashlib.sha256`
fingerprints are modelled by keeping the hashed payloads themselves. -/

structure UsageD where
  input_tokens : Option Int
  output_tokens : Option Int
  cache_creation_input_tokens : Option Int
  cache_read_input_tokens : Option Int
deriving DecidableEq

inductive Block : Type where
  | text : String → Block
  | image : List Nat → Block
deriving DecidableEq

/-- The external analysis service. -/
abbrev Oracle := String → List Block → Nat → ℚ → Except String (String × UsageD)

/-- A cache key: the transmitted image bytes and the metadata string that
the source hashes into the key (`model|prompt_key|ep=..|p=..`). -/
abbrev CacheKey := List Nat × String

/-- The session LLM cache: an insertion-ordered dict from keys to
`ExtractionFact or None`. -/
abbrev Cache := List (CacheKey × Option JVal)

/-- `key in cache` / `cache[key]` lookup. -/
def cacheLookup (c : Cache) (k : CacheKey) : Option (Option JVal) :=
  match c with
  | [] => none
  | kv :: rest => if kv.1 = k then some kv.2 else cacheLookup rest k

/-- `cache[key] = value`: replace-or-append dict assignment. -/
def cacheSet (c : Cache) (k : CacheKey) (v : Option JVal) : Cache :=
  match c with
  | [] => [(k, v)]
  | kv :: rest => if kv.1 = k then (k, v) :: rest else kv :: cacheSet rest k v

/-- `img_info.get("send_data") or img_info.get("data") or b""`: Python `or`
on bytes, where `None` and `b""` are falsy. -/
def imgBytes (i : Img) : List Nat :=
  match i.send_data with
  | some b => if b = [] then (i.data.getD []) else b
  | none =>
      match i.data with
      | some b => b
      | none => []

/-- `_image_cache_key` (src/app.py 679-683), with the two sha256 digests
modelled by the hashed payloads themselves. -/
def _image_cache_key (img : Img) (model : String) (prompt_key : String) : CacheKey :=
  (imgBytes img,
   model ++ "|" ++ prompt_key ++ "|ep=" ++ toString (img.episode.getD 1) ++
     "|p=" ++ toString (img.page.getD 1))

/-! ### JSON dict helpers (Python `dict.get` / item assignment) -/

/-- `d.get(k)` on an object's entry list. -/
def jGet (kvs : List (String × JVal)) (k : String) : Option JVal :=
  (kvs.find? (fun kv => kv.1 = k)).map (fun kv => kv.2)

/-- `d.get(k, default)`. -/
def jGetD (kvs : List (String × JVal)) (k : String) (d : JVal) : JVal :=
  (jGet kvs k).getD d

/-- `d.get(k, default)` for string-valued entries. -/
def jGetStrD (kvs : List (String × JVal)) (k d : String) : String :=
  match jGet kvs k with
  | some (JVal.str s) => s
  | _ => d

/-- `d[k] = v`: replace in place or append. -/
def jSet (kvs : List (String × JVal)) (k : String) (v : JVal) :
    List (String × JVal) :=
  match kvs with
  | [] => [(k, v)]
  | kv :: rest => if kv.1 = k then (k, v) :: rest else kv :: jSet rest k v

/-- `d.setdefault(k, v)`: append only when the key is absent. -/
def jSetDefault (kvs : List (String × JVal)) (k : String) (v : JVal) :
    List (String × JVal) :=
  if (jGet kvs k).isSome then kvs else kvs ++ [(k, v)]

/-- The entry list of an object value (`[]` for non-objects). -/
def jObjKVs : JVal → List (String × JVal)
  | JVal.obj kvs => kvs
  | _ => []

/-- `isinstance(x, (int, float))` together with the numeric value; Python
booleans are integers (`True` is 1). -/
def pyNum : Option JVal → Option ℚ
  | some (JVal.num q) => some q
  | some (JVal.bool b) => some (if b then 1 else 0)
  | _ => none

/-- `isinstance(x, int)` with the integer value, for usage token counts
(the SDK reports ints or `None`). -/
def jInt : Option JVal → Option Int
  | some (JVal.num q) => if q.den = 1 then some q.num else none
  | _ => none

/-- `isinstance(x, list)`. -/
def isJList : Option JVal → Bool
  | some (JVal.arr _) => true
  | _ => false

/-- The coerced list value (`characters = []` when not a list). -/
def jListOf : Option JVal → List JVal
  | some (JVal.arr l) => l
  | _ => []

/-- Python truthiness of a JSON value. -/
def jTruthy : JVal → Bool
  | JVal.null => false
  | JVal.bool b => b
  | JVal.num q => decide (q ≠ 0)
  | JVal.str s => decide (s ≠ "")
  | JVal.arr l => ¬ l.isEmpty
  | JVal.obj l => ¬ l.isEmpty

/-- The usage dict as stored into `facts["_usage"]`. -/
def usageToJVal (u : UsageD) : JVal :=
  JVal.obj
    [("input_tokens", match u.input_tokens with | some n => JVal.num (n : ℚ) | none => JVal.null),
     ("output_tokens", match u.output_tokens with | some n => JVal.num (n : ℚ) | none => JVal.null),
     ("cache_creation_input_tokens",
       match u.cache_creation_input_tokens with | some n => JVal.num (n : ℚ) | none => JVal.null),
     ("cache_read_input_tokens",
       match u.cache_read_input_tokens with | some n => JVal.num (n : ℚ) | none => JVal.null)]

/-! ### Usage accounting (src/app.py 726-738) -/

structure Totals where
  input_tokens : Int
  output_tokens : Int
  calls : Nat
deriving DecidableEq

abbrev UsageTotals := List (String × Totals)

/-- `setdefault` plus in-place accumulation on the per-model totals. -/
def updateTotals (totals : UsageTotals) (model : String) (it ot : Option Int) :
    UsageTotals :=
  match totals with
  | [] => [(model, ⟨it.getD 0, ot.getD 0, 1⟩)]
  | mt :: rest =>
      if mt.1 = model then
        (mt.1, ⟨mt.2.input_tokens + it.getD 0, mt.2.output_tokens + ot.getD 0,
                mt.2.calls + 1⟩) :: rest
      else mt :: updateTotals rest model it ot

/-- `_add_usage_totals` (src/app.py 726-738): merge one call's usage into
the per-model totals; a no-op when the model name or the usage value is
falsy. -/
def _add_usage_totals (totals : UsageTotals) (model : String)
    (usage : Option JVal) : UsageTotals :=
  let falsyUsage : Bool :=
    match usage with
    | none => true
    | some JVal.null => true
    | some (JVal.obj []) => true
    | _ => false
  if model = "" ∨ falsyUsage then totals
  else
    let ukvs : List (String × JVal) :=
      match usage with
      | some (JVal.obj kvs) => kvs
      | _ => []
    updateTotals totals model (jInt (jGet ukvs "input_tokens"))
      (jInt (jGet ukvs "output_tokens"))

/-! ### Per-image fact extraction (src/app.py 741-812) -/

/-- The fixed requirements block of the extraction prompt
(src/app.py 768-784). -/
def factsPromptTail : String :=
  "要件:\n- 目的は「大筋のあらすじ」を作ること。セリフの一字一句は不要。\n- ただし「登場人物/関係性」「主要イベント」は取り違えると致命的なので慎重に。\n- 推測で補完しない。読めない/不明は不明と書く。\n\n出力(JSONのみ):\n\x7b\n  \"episode\": <int>,\n  \"page\": <int>,\n  \"characters\": [\n    \x7b\"name_or_role\": \"<人物名または役割>\", \"relation_terms\": [\"義母\",\"夫\",...], \"evidence\": \"<根拠(短い引用or描写)>\"\x7d \n  ],\n  \"events\": [\"<主要イベント1>\",\"<主要イベント2>\"],\n  \"key_dialogue_quotes\": [\"<短い引用(任意)>\"],\n  \"confidence\": <0.0-1.0>,\n  \"uncertainties\": [\"<不確かな点>\"]\n\x7d"

/-- The message content of `extract_image_facts_single`
(src/app.py 754-786): context header, the transmitted image, and the
requirements block. -/
def factsContent (img : Img) (title : String) : List Block :=
  let header := if title ≠ "" then "参考タイトル: " ++ title ++ "\n" else ""
  [Block.text (header ++ "対象: 第" ++ toString (img.episode.getD 1) ++ "話 P" ++
      toString (img.page.getD 1) ++ "\n以下の画像から情報を抽出してください。出力はJSONのみ。"),
   Block.image (imgBytes img),
   Block.text factsPromptTail]

/-- `extract_image_facts_single` (src/app.py 741-812): consult the session
cache; on a miss, call the model once, parse a JSON object out of the
response, patch in episode/page defaults and provenance, and cache the
result — caching `None` both on a call exception and on an unparseable
response.  Returns (result, cache, number of external calls made). -/
def extract_image_facts_single (oracle : Oracle) (cache : Cache) (img : Img)
    (model : String) (title : String) (max_tokens : Nat) :
    Option JVal × Cache × Nat :=
  let cache_key := _image_cache_key img model "facts_v1"
  match cacheLookup cache cache_key with
  | some v => (v, cache, 0)
  | none =>
      match oracle model (factsContent img title) max_tokens (1/5 : ℚ) with
      | Except.error _ => (none, cacheSet cache cache_key none, 1)
      | Except.ok tu =>
          let json_block := (_extract_json_block tu.1).getD tu.1
          match _safe_json_loads json_block with
          | some (JVal.obj kvs) =>
              let kvs1 := jSetDefault kvs "episode" (JVal.num (img.episode.getD 1 : ℚ))
              let kvs2 := jSetDefault kvs1 "page" (JVal.num (img.page.getD 1 : ℚ))
              let kvs3 := jSet kvs2 "_usage" (usageToJVal tu.2)
              let kvs4 := jSet kvs3 "_model" (JVal.str model)
              (some (JVal.obj kvs4), cacheSet cache cache_key (some (JVal.obj kvs4)), 1)
          | _ => (none, cacheSet cache cache_key none, 1)

/-! ### Suspicion detection (src/app.py 686-723 and 861-868) -/

/-- The unreadable/unknown markers of src/app.py line 714. -/
def bad_markers : List String :=
  ["不明", "読めない", "判別不能", "見えない", "わからない", "?", "□", "�"]

/-- `_validate_image_facts` (src/app.py 686-723), mirrored exactly —
including the early `return False, [...]` for non-dict payloads and the
fixed internal 0.55 confidence threshold. -/
def _validate_image_facts (facts : JVal) : Bool × List String :=
  match facts with
  | JVal.obj kvs =>
      let confidence := jGet kvs "confidence"
      let r1 : List String :=
        match pyNum confidence with
        | some c => if c < (11/20 : ℚ) then ["confidenceが低い(" ++ numRepr c ++ ")"] else []
        | none => ["confidenceが未設定"]
      let characters := jGet kvs "characters"
      let events := jGet kvs "events"
      let r2 : List String := if ¬ isJList characters then ["charactersが配列ではない"] else []
      let r3 : List String := if ¬ isJList events then ["eventsが配列ではない"] else []
      let r4 : List String :=
        if (jListOf characters).length = 0 ∧ (jListOf events).length = 0 then
          ["人物/イベントが空"]
        else []
      let as_text := dumps (JVal.obj kvs)
      let r5 : List String :=
        if 3 ≤ (bad_markers.map (fun m => countOcc m as_text)).sum then
          ["不明/文字化け/判別不能が多い"]
        else []
      let r6 : List String := if strLen as_text < 120 then ["出力が短すぎる"] else []
      let reasons := r1 ++ r2 ++ r3 ++ r4 ++ r5 ++ r6
      (decide (0 < reasons.length), reasons)
  | _ => (false, ["JSONではありません"])

/-- The suspicion decision applied to each successfully extracted record
(src/app.py 861-864): a numeric confidence below the configured threshold
short-circuits; otherwise the heuristic validator decides. -/
def suspicionStep (thr : ℚ) (kvs : List (String × JVal)) : Bool × List String :=
  match pyNum (jGet kvs "confidence") with
  | some c =>
      if c < thr then (true, ["confidence<" ++ numRepr thr])
      else _validate_image_facts (JVal.obj kvs)
  | none => _validate_image_facts (JVal.obj kvs)

/-! ## Extraction pipeline (`extract_panel_details`, src/app.py 815-957) -/

/-- The empty-facts placeholder appended on extraction failure
(src/app.py 849-857). -/
def failurePlaceholder (ep page : Nat) : JVal :=
  JVal.obj
    [("episode", JVal.num (ep : ℚ)), ("page", JVal.num (page : ℚ)),
     ("characters", JVal.arr []), ("events", JVal.arr []),
     ("key_dialogue_quotes", JVal.arr []),
     ("confidence", JVal.num 0),
     ("uncertainties", JVal.arr [JVal.str "抽出失敗"])]

/-- State threaded through the primary extraction loop. -/
structure PDState where
  extracted : List JVal
  suspicious_indices : List Nat
  suspicious_reasons : List (Nat × List String)
  usage_totals : UsageTotals
  cache : Cache
  calls : Nat

/-- The primary extraction loop (src/app.py 838-871): extract each image
with the primary model, substituting a suspicious placeholder on failure
and applying the suspicion decision on success. -/
def primaryLoop (oracle : Oracle) (title pm : String) (mt : Nat) (thr : ℚ) :
    List Img → Nat → PDState → PDState
  | [], _, st => st
  | img :: rest, idx, st =>
      let r := extract_image_facts_single oracle st.cache img pm title mt
      match r.1 with
      | none =>
          primaryLoop oracle title pm mt thr rest (idx + 1)
            ⟨st.extracted ++ [failurePlaceholder (img.episode.getD 1) (img.page.getD 1)],
             st.suspicious_indices ++ [idx],
             st.suspicious_reasons ++ [(idx, ["抽出失敗(None)"])],
             st.usage_totals, r.2.1, st.calls + r.2.2⟩
      | some facts =>
          let kvs := jObjKVs facts
          let sr := suspicionStep thr kvs
          primaryLoop oracle title pm mt thr rest (idx + 1)
            ⟨st.extracted ++ [facts],
             (if sr.1 then st.suspicious_indices ++ [idx] else st.suspicious_indices),
             (if sr.1 then st.suspicious_reasons ++ [(idx, sr.2)] else st.suspicious_reasons),
             _add_usage_totals st.usage_totals (jGetStrD kvs "_model" "") (jGet kvs "_usage"),
             r.2.1, st.calls + r.2.2⟩

/-- The text-verifier prompt (src/app.py 880-887). -/
def verifierPrompt (payload : String) : String :=
  "以下は漫画画像から抽出したJSON一覧です。\n目的は「大筋のあらすじ」。ただし「登場人物/関係性」「主要イベント」の取り違えは致命的です。\n\nこのJSON一覧を読み、明らかに不足・矛盾・テンプレ臭・不自然な飛躍がある画像(配列のindex)を列挙してください。\n出力はJSONのみ: \x7b\"suspicious_indexes\":[0,2,...],\"reasons\":\x7b\"0\":[\"理由1\",...],...\x7d\x7d\n\n入力JSON:\n" ++ payload

/-- Merge the verifier's extra indices (src/app.py 902-905): keep integers
in `[0, len(images))` that are not already flagged. -/
def mergeVerifierIdx (len : Nat) :
    List JVal → List Nat → List (Nat × List String) →
    List Nat × List (Nat × List String)
  | [], si, srs => (si, srs)
  | v :: rest, si, srs =>
      match v with
      | JVal.num q =>
          if q.den = 1 ∧ 0 ≤ q.num ∧ q.num < (len : Int) ∧ ¬ (q.num.toNat ∈ si) then
            mergeVerifierIdx len rest (si ++ [q.num.toNat])
              (srs ++ [(q.num.toNat, ["テキスト検証で要再確認"])])
          else mergeVerifierIdx len rest si srs
      | _ => mergeVerifierIdx len rest si srs

/-- The optional text-verification stage (src/app.py 874-907): ask the
verifier model which extracted records look suspicious and merge the
returned indices; a call exception skips the whole stage (`except: pass`).
Returns (indices, reasons, usage totals, calls attempted). -/
def runVerifier (oracle : Oracle) (vm : String) (nImages : Nat)
    (extracted : List JVal) (si : List Nat) (srs : List (Nat × List String))
    (ut : UsageTotals) :
    List Nat × List (Nat × List String) × UsageTotals × Nat :=
  let payload := dumps (JVal.arr extracted)
  match oracle vm [Block.text (verifierPrompt payload)] 700 (1/10 : ℚ) with
  | Except.error _ => (si, srs, ut, 1)
  | Except.ok tu =>
      let ut' := _add_usage_totals ut vm (some (usageToJVal tu.2))
      match _safe_json_loads ((_extract_json_block tu.1).getD tu.1) with
      | some (JVal.obj kvs) =>
          match jGet kvs "suspicious_indexes" with
          | some (JVal.arr extra) =>
              let m := mergeVerifierIdx nImages extra si srs
              (m.1, m.2, ut', 1)
          | _ => (si, srs, ut', 1)
      | _ => (si, srs, ut', 1)

/-- First-occurrence deduplication of an index list. -/
def dedupNatAux (seen : List Nat) : List Nat → List Nat
  | [] => []
  | x :: xs => if x ∈ seen then dedupNatAux seen xs else x :: dedupNatAux (x :: seen) xs

/-- `sorted(set(xs))` (src/app.py line 909). -/
def sortedDedup (xs : List Nat) : List Nat :=
  sortByKey (fun n => n) (dedupNatAux [] xs)

/-- Result of the escalation stage. -/
structure EscState where
  extracted : List JVal
  usage_totals : UsageTotals
  cache : Cache
  escalated : Nat
  calls : Nat

/-- The escalation loop (src/app.py 914-926): re-extract every suspicious
index with the fallback model; a non-`None` result overwrites that record
in place and counts one escalation, a `None` result changes nothing. -/
def escalateLoop (oracle : Oracle) (images : List Img) (title fb : String)
    (mt : Nat) : List Nat → List JVal → UsageTotals → Cache → EscState
  | [], ext, ut, c => ⟨ext, ut, c, 0, 0⟩
  | idx :: rest, ext, ut, c =>
      let r := extract_image_facts_single oracle c (images.getD idx default) fb title mt
      match r.1 with
      | some facts =>
          let kvs := jObjKVs facts
          let st := escalateLoop oracle images title fb mt rest (ext.set idx facts)
              (_add_usage_totals ut (jGetStrD kvs "_model" "") (jGet kvs "_usage")) r.2.1
          ⟨st.extracted, st.usage_totals, st.cache, st.escalated + 1, st.calls + r.2.2⟩
      | none =>
          let st := escalateLoop oracle images title fb mt rest ext ut r.2.1
          ⟨st.extracted, st.usage_totals, st.cache, st.escalated, st.calls + r.2.2⟩

/-- The escalation stage with its guard (src/app.py line 913): it runs only
when a fallback model is configured (truthy) and differs from the primary
model. -/
def escalateStage (oracle : Oracle) (images : List Img) (title fb pm : String)
    (mt : Nat) (S : List Nat) (ext : List JVal) (ut : UsageTotals) (c : Cache) :
    EscState :=
  if fb ≠ "" ∧ fb ≠ pm then escalateLoop oracle images title fb mt S ext ut c
  else ⟨ext, ut, c, 0, 0⟩

/-- The ordered trace of fallback-extraction outcomes seen by the escalation
loop: one entry per suspicious index, with the session cache threaded from
call to call exactly as `escalateLoop` threads it (the loop passes the
returned cache `r.2.1` to the recursive call in both branches, so the i-th
entry is exactly what the loop's i-th `extract_image_facts_single` call
returned). -/
def escalateResults (oracle : Oracle) (images : List Img) (title fb : String)
    (mt : Nat) : List Nat → Cache → List (Option JVal)
  | [], _ => []
  | idx :: rest, c =>
      (extract_image_facts_single oracle c (images.getD idx default) fb title mt).1 ::
        escalateResults oracle images title fb mt rest
          (extract_image_facts_single oracle c (images.getD idx default) fb title mt).2.1

/-- Python `str()` of the scalar JSON values interpolated into the panel
brief. -/
def pyStr : Option JVal → String
  | none => "None"
  | some JVal.null => "None"
  | some (JVal.bool b) => if b then "True" else "False"
  | some (JVal.num q) => numRepr q
  | some (JVal.str s) => s
  | some v => dumps v

/-- One record's block of the panel brief (src/app.py 933-945). -/
def panelBlock (i : Nat) (facts : JVal) : List String :=
  let kvs := jObjKVs facts
  ["\n### 画像" ++ toString i ++ "（第" ++ pyStr (some (jGetD kvs "episode" (JVal.num 1))) ++
     "話 P" ++ pyStr (some (jGetD kvs "page" (JVal.num 1))) ++ "）",
   "- confidence: " ++ pyStr (jGet kvs "confidence"),
   "- characters: " ++ dumps (jGetD kvs "characters" (JVal.arr [])),
   "- events: " ++ dumps (jGetD kvs "events" (JVal.arr []))] ++
  (if jTruthy (jGetD kvs "uncertainties" (JVal.arr [])) then
    ["- uncertainties: " ++ dumps (jGetD kvs "uncertainties" (JVal.arr []))]
  else [])

/-- The per-record blocks, 1-indexed (`enumerate(extracted, start=1)`). -/
def panelBlocks : Nat → List JVal → List String
  | _, [] => []
  | i, f :: rest => panelBlock i f ++ panelBlocks (i + 1) rest

/-- The serialized panel brief (src/app.py 929-945 and the final join). -/
def panelDetailsText (title : String) (extracted : List JVal) : String :=
  String.intercalate "\n"
    ((if title ≠ "" then ["【参考タイトル】" ++ title] else []) ++
     ["【画像ごとの抽出（人物/イベント中心）】"] ++ panelBlocks 1 extracted)

/-- The `meta` dict assembled by the pipeline (src/app.py 836, 947-956,
1083-1084).  The two summary fields are filled in by
`analyze_images_batch` and are empty for a bare `extract_panel_details`
run. -/
structure Meta where
  usage_totals : UsageTotals
  total_images : Nat
  suspicious_images : Nat
  escalated_to_opus : Nat
  suspicious_indices : List Nat
  suspicious_reasons : List (Nat × List String)
  primary_model : String
  fallback_model : String
  verifier_model : String
  summary_model : String
  panel_details_preview : String

/-- `extract_panel_details` (src/app.py 815-957): primary extraction over
every image, suspicion marking, optional text verification, escalation of
the suspicious subset, and serialization of the final records.  Returns
(panel brief, meta, final cache, number of external calls attempted). -/
def extract_panel_details (oracle : Oracle) (cache0 : Cache) (images : List Img)
    (title primary_model fallback_model : String) (max_tokens_per_image : Nat)
    (thr : ℚ) (enable_text_verifier : Bool) (verifier_model : String) :
    String × Meta × Cache × Nat :=
  let st := primaryLoop oracle title primary_model max_tokens_per_image thr images 0
      ⟨[], [], [], [], cache0, 0⟩
  let v :=
    if enable_text_verifier ∧ ¬ st.extracted.isEmpty then
      runVerifier oracle verifier_model images.length st.extracted
        st.suspicious_indices st.suspicious_reasons st.usage_totals
    else (st.suspicious_indices, st.suspicious_reasons, st.usage_totals, 0)
  let S := sortedDedup v.1
  let esc := escalateStage oracle images title fallback_model primary_model
      max_tokens_per_image S st.extracted v.2.2.1 st.cache
  (panelDetailsText title esc.extracted,
   ⟨esc.usage_totals, images.length, S.length, esc.escalated, S, v.2.1,
    primary_model, fallback_model, verifier_model, "", ""⟩,
   esc.cache, st.calls + v.2.2.2 + esc.calls)

/-- The Step-2 summarization prompt (src/app.py 1041-1069). -/
def summaryPrompt (title panel_details : String) : String :=
  "以下は漫画画像から抽出した「人物/関係性/主要イベント」の材料です。\nこれを元に「大筋のあらすじ」を作ってください。\n\n制約:\n- 推測で補完しない。不明は不明として扱う\n- ただし、人物/関係性/主要イベントを取り違えない（矛盾があれば慎重に）\n- 感情表現は多少の幅があってよい\n\n" ++
  (if title ≠ "" then "【参考タイトル】\n" ++ title ++ "\n\n" else "") ++
  "【抽出材料】\n" ++ panel_details ++
  "\n\n---\n\n出力形式:\n## あらすじ\n(3〜6文)\n\n## 登場人物\n(箇条書き。関係性も明記)\n\n## 主要イベント\n(箇条書き。時系列が分かるように)\n\n## 不確かな点\n(材料に不明/矛盾がある場合のみ)"

/-- `analyze_images_batch` (src/app.py 1010-1086): Step-1 extraction, then
one summarization call whose exception is converted into an error-tagged
summary string while the accumulated metadata is still returned.  Returns
(summary, meta, final cache, total external calls attempted). -/
def analyze_images_batch (oracle : Oracle) (cache0 : Cache) (images : List Img)
    (title primary_model fallback_model summary_model verifier_model : String)
    (max_tokens_per_image : Nat) (thr : ℚ) (enable_text_verifier : Bool) :
    String × Meta × Cache × Nat :=
  let r := extract_panel_details oracle cache0 images title primary_model
      fallback_model max_tokens_per_image thr enable_text_verifier verifier_model
  let meta := r.2.1
  let su : String × UsageTotals :=
    match oracle summary_model [Block.text (summaryPrompt title r.1)] 1300 (1/5 : ℚ) with
    | Except.ok tu =>
        (tu.1, _add_usage_totals meta.usage_totals summary_model (some (usageToJVal tu.2)))
    | Except.error e => ("要約エラー: " ++ e, meta.usage_totals)
  (su.1,
   ⟨su.2, meta.total_images, meta.suspicious_images, meta.escalated_to_opus,
    meta.suspicious_indices, meta.suspicious_reasons, meta.primary_model,
    meta.fallback_model, meta.verifier_model, summary_model,
    String.mk (r.1.data.take 4000)⟩,
   r.2.2.1, r.2.2.2 + 1)

/-! ## Specification-side definitions and concrete test fixtures -/

/-- The canonical decimal digits of a natural number (fuel-indexed so the
definition reduces by evaluation). -/
def natDigitsAux : Nat → Nat → List Char
  | 0, _ => []
  | fuel + 1, n =>
      if n < 10 then [Char.ofNat (48 + n)]
      else natDigitsAux fuel (n / 10) ++ [Char.ofNat (48 + n % 10)]

/-- The decimal digit string of `n`. -/
def natDigits (n : Nat) : List Char := natDigitsAux (n + 1) n

/-- The URLs seen after scanning a list of images (the `seen_urls` set of
the traversal loops, as a first-seen list). -/
def seenAfter (seen : List String) : List Img → List String
  | [] => seen
  | x :: xs => if x.url ∈ seen then seenAfter seen xs else seenAfter (x.url :: seen) xs

/-- The secondary-validator trigger list exactly as claim C3 states it, for
extraction records (which are always well-formed objects): `characters` or
`events` is not a list, both are empty, three or more unreadable markers in
the serialized payload, or a serialized payload shorter than the minimum
length. -/
def validator_claimed (kvs : List (String × JVal)) : Bool :=
  (¬ isJList (jGet kvs "characters")) ||
  (¬ isJList (jGet kvs "events")) ||
  (decide ((jListOf (jGet kvs "characters")).length = 0) &&
    decide ((jListOf (jGet kvs "events")).length = 0)) ||
  decide (3 ≤ (bad_markers.map (fun m => countOcc m (dumps (JVal.obj kvs)))).sum) ||
  decide (strLen (dumps (JVal.obj kvs)) < 120)

/-- Claim C3's suspicion condition, literally: confidence below the
caller-configured threshold, or the claimed validator triggers. -/
def suspicious_claimed (thr : ℚ) (kvs : List (String × JVal)) : Bool :=
  (match pyNum (jGet kvs "confidence") with
   | some c => decide (c < thr)
   | none => false) || validator_claimed kvs

/-- The amended suspicion condition: claim C3's condition plus the two
confidence triggers the validator actually contains — a missing or
non-numeric confidence, and a confidence below the fixed internal 0.55
threshold regardless of the configured one. -/
def suspicious_amended (thr : ℚ) (kvs : List (String × JVal)) : Bool :=
  suspicious_claimed thr kvs ||
  (pyNum (jGet kvs "confidence")).isNone ||
  (match pyNum (jGet kvs "confidence") with
   | some c => decide (c < (11/20 : ℚ))
   | none => false)

/-- C1 fixture: an `<img>` element with a plain `src` and no `srcset`. -/
def c1tag : ImgTag := ⟨[("src", "https://site.example/comic/p1.jpg")]⟩

/-- C2 fixture: a two-episode site whose episodes share an image URL. -/
def c2site : Site :=
  ⟨fun u =>
      if u = "https://h/ep1" then some ⟨[mkCand "https://h/shared.jpg" ""], some "https://h/ep2"⟩
      else if u = "https://h/ep2" then some ⟨[mkCand "https://h/shared.jpg" ""], none⟩
      else none,
   fun u => [u]⟩

/-- C2 fixture: a filter environment in which every candidate survives. -/
def c2env : FilterEnv :=
  ⟨fun _ => some [1, 2, 3], fun _ => some (300, 300), fun _ => some [9]⟩

/-- C6 fixture: a filter environment with fixed download, decode and
preprocessing results. -/
def c6env : FilterEnv :=
  ⟨fun _ => some [1, 2, 3], fun _ => some (300, 300), fun _ => some [9]⟩

/-- C3 fixture: a record whose confidence (0.5) is above a configured
threshold of 0.3 and which triggers none of the claim's validator
conditions, yet is flagged by the code's fixed internal 0.55 threshold. -/
def c3facts : List (String × JVal) :=
  [("confidence", JVal.num (1/2)),
   ("characters", JVal.arr
     [JVal.obj [("name_or_role", JVal.str "主人公の母"),
                ("relation_terms", JVal.arr [JVal.str "母"]),
                ("evidence", JVal.str "会話の内容から母と判断")]]),
   ("events", JVal.arr [JVal.str "家族で夕食をとる", JVal.str "翌朝に学校へ向かう"]),
   ("key_dialogue_quotes", JVal.arr []),
   ("uncertainties", JVal.arr [])]

/-- An oracle whose every call raises (used for failure-path fixtures). -/
def failOracle : Oracle := fun _ _ _ _ => Except.error "接続エラー"

/-- C4 fixture: first request, episode 1 page 1. -/
def c4imgA : Img := ⟨"https://h/a.jpg", "", some 1, some 1, some [7, 7], some [1, 2], none, none, none⟩

/-- C4 fixture: identical transmitted bytes, model and prompt version, but
page 2 — so a different episode/page discriminator in the cache key. -/
def c4imgB : Img := ⟨"https://h/a.jpg", "", some 1, some 2, some [7, 7], some [1, 2], none, none, none⟩

/-- C5/C10 fixture: a lone image record. -/
def c5img : Img := ⟨"https://h/b.jpg", "", some 1, some 1, some [3], some [4], none, none, none⟩

/-- C8 fixture: a single-episode site with no "next episode" link. -/
def c8site : Site := ⟨fun _ => some ⟨[mkCand "https://h/x.jpg" ""], none⟩, fun u => [u]⟩

/-! ## Helper lemmas: the session cache -/

theorem cacheLookup_cacheSet_self (c : Cache) (k : CacheKey) (v : Option JVal) :
    cacheLookup (cacheSet c k v) k = some v := by
  induction c with
  | nil => simp [cacheSet, cacheLookup]
  | cons kv rest ih =>
      by_cases h : kv.1 = k
      · simp [cacheSet, cacheLookup, h]
      · simp [cacheSet, cacheLookup, h, ih]

theorem extract_single_hit (oracle : Oracle) (c : Cache) (img : Img)
    (model title : String) (mt : Nat) (v : Option JVal)
    (h : cacheLookup c (_image_cache_key img model "facts_v1") = some v) :
    extract_image_facts_single oracle c img model title mt = (v, c, 0) := by
  unfold extract_image_facts_single
  simp only [h]

theorem extract_single_miss (oracle : Oracle) (c : Cache) (img : Img)
    (model title : String) (mt : Nat)
    (h : cacheLookup c (_image_cache_key img model "facts_v1") = none) :
    (extract_image_facts_single oracle c img model title mt).2.1
      = cacheSet c (_image_cache_key img model "facts_v1")
          (extract_image_facts_single oracle c img model title mt).1 ∧
    (extract_image_facts_single oracle c img model title mt).2.2 = 1 := by
  unfold extract_image_facts_single
  simp only [h]
  cases horacle : oracle model (factsContent img title) mt (1/5 : ℚ) with
  | error e => simp
  | ok tu =>
      simp only
      split <;> simp

/-! ## C4: session-cache correctness -/

/-- Claim C4 (counterexample):  The claim says two extraction requests with
identical transmitted image bytes, model identifier and prompt-version tag
cause exactly one external call.  `c4imgA` and `c4imgB` have identical
bytes, model and prompt version but different page tags, so their cache
keys differ and the session makes two external calls, not one. -/
theorem c4_cache_counterexample :
    ((extract_image_facts_single failOracle [] c4imgA "m" "" 700).2.2 +
      (extract_image_facts_single failOracle
        (extract_image_facts_single failOracle [] c4imgA "m" "" 700).2.1
        c4imgB "m" "" 700).2.2 = 2) ∧
    imgBytes c4imgA = imgBytes c4imgB ∧
    ¬ ((extract_image_facts_single failOracle [] c4imgA "m" "" 700).2.2 +
      (extract_image_facts_single failOracle
        (extract_image_facts_single failOracle [] c4imgA "m" "" 700).2.1
        c4imgB "m" "" 700).2.2 = 1) := by
  refine ⟨by decide, by decide, by decide⟩

/-- Claim C4 (amended):  Within one session, two extraction requests whose
transmitted image bytes, model identifier, prompt-version tag *and
episode/page discriminators* coincide — that is, whose cache keys coincide
— and whose key is not yet cached, make exactly one external call between
them, and the second request returns exactly the first one's result from
the cache. -/
theorem c4_cache_correct_amended (oracle : Oracle) (cache : Cache)
    (img1 img2 : Img) (model title : String) (mt : Nat)
    (hkey : _image_cache_key img2 model "facts_v1" = _image_cache_key img1 model "facts_v1")
    (hmiss : cacheLookup cache (_image_cache_key img1 model "facts_v1") = none) :
    (extract_image_facts_single oracle cache img1 model title mt).2.2 +
      (extract_image_facts_single oracle
        (extract_image_facts_single oracle cache img1 model title mt).2.1
        img2 model title mt).2.2 = 1 ∧
    (extract_image_facts_single oracle
        (extract_image_facts_single oracle cache img1 model title mt).2.1
        img2 model title mt).1
      = (extract_image_facts_single oracle cache img1 model title mt).1 := by
  have h1 := extract_single_miss oracle cache img1 model title mt hmiss
  have hlook : cacheLookup (extract_image_facts_single oracle cache img1 model title mt).2.1
      (_image_cache_key img2 model "facts_v1")
      = some (extract_image_facts_single oracle cache img1 model title mt).1 := by
    rw [hkey, h1.1]
    exact cacheLookup_cacheSet_self ..
  have h2 := extract_single_hit oracle
    (extract_image_facts_single oracle cache img1 model title mt).2.1
    img2 model title mt _ hlook
  refine ⟨?_, ?_⟩
  · rw [h1.2, h2]
    rfl
  · rw [h2]

/-- Witness for C4 (amended) at a concrete input. -/
theorem c4_cache_correct_amended_witness :
    (extract_image_facts_single failOracle [] c4imgA "m" "" 700).2.2 +
      (extract_image_facts_single failOracle
        (extract_image_facts_single failOracle [] c4imgA "m" "" 700).2.1
        c4imgA "m" "" 700).2.2 = 1 ∧
    (extract_image_facts_single failOracle
        (extract_image_facts_single failOracle [] c4imgA "m" "" 700).2.1
        c4imgA "m" "" 700).1
      = (extract_image_facts_single failOracle [] c4imgA "m" "" 700).1 :=
  c4_cache_correct_amended failOracle [] c4imgA c4imgA "m" "" 700 rfl rfl

/-! ## C10: negative caching of failed extractions -/

/-- Claim C10:  A failed per-image extraction (call error or unparseable
response — any run that returns `None` on a cache miss) stores `None` in
the session cache under its key, and every later request finding `None`
cached under that key returns `None` immediately with zero external
calls. -/
theorem c10_negative_caching (oracle : Oracle) (cache : Cache) (img : Img)
    (model title : String) (mt : Nat)
    (hmiss : cacheLookup cache (_image_cache_key img model "facts_v1") = none)
    (hfail : (extract_image_facts_single oracle cache img model title mt).1 = none) :
    cacheLookup (extract_image_facts_single oracle cache img model title mt).2.1
        (_image_cache_key img model "facts_v1") = some none ∧
    ∀ c₂ : Cache,
      cacheLookup c₂ (_image_cache_key img model "facts_v1") = some none →
        extract_image_facts_single oracle c₂ img model title mt = (none, c₂, 0) := by
  constructor
  · rw [(extract_single_miss oracle cache img model title mt hmiss).1, hfail]
    exact cacheLookup_cacheSet_self ..
  · intro c₂ h₂
    exact extract_single_hit oracle c₂ img model title mt none h₂

/-- Witness for C10 at a concrete input (an oracle that always raises). -/
theorem c10_negative_caching_witness :
    cacheLookup (extract_image_facts_single failOracle [] c5img "m" "" 700).2.1
        (_image_cache_key c5img "m" "facts_v1") = some none ∧
    ∀ c₂ : Cache,
      cacheLookup c₂ (_image_cache_key c5img "m" "facts_v1") = some none →
        extract_image_facts_single failOracle c₂ c5img "m" "" 700 = (none, c₂, 0) :=
  c10_negative_caching failOracle [] c5img "m" "" 700 rfl rfl

/-! ## C9: summarization failure handling -/

/-- Claim C9:  If the summarization call raises, `analyze_images_batch`
returns the error-tagged text (`"要約エラー: "` plus the exception text) in
place of the summary, still returns the accumulated metadata (usage totals
and diagnostic counts unchanged from the extraction stage), and consumes
exactly one summarization attempt on top of the extraction stage's calls —
no retry.  No exception escapes: the embedded function is total and this
is its value on the failure branch. -/
theorem c9_summary_error (oracle : Oracle) (cache0 : Cache) (images : List Img)
    (title pm fb sm vm : String) (mt : Nat) (thr : ℚ) (etv : Bool) (msg : String)
    (herr : oracle sm [Block.text (summaryPrompt title
        (extract_panel_details oracle cache0 images title pm fb mt thr etv vm).1)]
        1300 (1/5 : ℚ) = Except.error msg) :
    (analyze_images_batch oracle cache0 images title pm fb sm vm mt thr etv).1
      = "要約エラー: " ++ msg ∧
    (analyze_images_batch oracle cache0 images title pm fb sm vm mt thr etv).2.1.usage_totals
      = (extract_panel_details oracle cache0 images title pm fb mt thr etv vm).2.1.usage_totals ∧
    (analyze_images_batch oracle cache0 images title pm fb sm vm mt thr etv).2.1.suspicious_images
      = (extract_panel_details oracle cache0 images title pm fb mt thr etv vm).2.1.suspicious_images ∧
    (analyze_images_batch oracle cache0 images title pm fb sm vm mt thr etv).2.1.escalated_to_opus
      = (extract_panel_details oracle cache0 images title pm fb mt thr etv vm).2.1.escalated_to_opus ∧
    (analyze_images_batch oracle cache0 images title pm fb sm vm mt thr etv).2.2.2
      = (extract_panel_details oracle cache0 images title pm fb mt thr etv vm).2.2.2 + 1 := by
  unfold analyze_images_batch
  simp only [herr]
  refine ⟨?_, ?_, ?_, ?_, ?_⟩ <;> trivial

/-- Witness for C9 at a concrete input (an oracle that always raises). -/
theorem c9_summary_error_witness :
    (analyze_images_batch failOracle [] [] "" "pm" "fb" "sm" "vm" 700 (11/20) true).1
      = "要約エラー: " ++ "接続エラー" ∧
    (analyze_images_batch failOracle [] [] "" "pm" "fb" "sm" "vm" 700 (11/20) true).2.1.usage_totals
      = (extract_panel_details failOracle [] [] "" "pm" "fb" 700 (11/20) true "vm").2.1.usage_totals ∧
    (analyze_images_batch failOracle [] [] "" "pm" "fb" "sm" "vm" 700 (11/20) true).2.1.suspicious_images
      = (extract_panel_details failOracle [] [] "" "pm" "fb" 700 (11/20) true "vm").2.1.suspicious_images ∧
    (analyze_images_batch failOracle [] [] "" "pm" "fb" "sm" "vm" 700 (11/20) true).2.1.escalated_to_opus
      = (extract_panel_details failOracle [] [] "" "pm" "fb" 700 (11/20) true "vm").2.1.escalated_to_opus ∧
    (analyze_images_batch failOracle [] [] "" "pm" "fb" "sm" "vm" 700 (11/20) true).2.2.2
      = (extract_panel_details failOracle [] [] "" "pm" "fb" 700 (11/20) true "vm").2.2.2 + 1 :=
  c9_summary_error failOracle [] [] "" "pm" "fb" "sm" "vm" 700 (11/20) true "接続エラー" rfl

/-! ## C3: the suspicion condition -/

theorem validate_conf_none (kvs : List (String × JVal))
    (h : pyNum (jGet kvs "confidence") = none) :
    (_validate_image_facts (JVal.obj kvs)).1 = true := by
  unfold _validate_image_facts
  simp [h]

theorem validate_conf_some (kvs : List (String × JVal)) (c : ℚ)
    (h : pyNum (jGet kvs "confidence") = some c) :
    (_validate_image_facts (JVal.obj kvs)).1
      = (decide (c < (11/20 : ℚ)) || validator_claimed kvs) := by
  unfold _validate_image_facts validator_claimed
  simp only [h]
  by_cases h1 : c < (11/20 : ℚ) <;>
    by_cases h2 : isJList (jGet kvs "characters") = true <;>
      by_cases h3 : isJList (jGet kvs "events") = true <;>
        by_cases h4 : (jListOf (jGet kvs "characters")).length = 0 <;>
          by_cases h5 : (jListOf (jGet kvs "events")).length = 0 <;>
            by_cases h6 : 3 ≤ (bad_markers.map (fun m => countOcc m (dumps (JVal.obj kvs)))).sum <;>
              by_cases h7 : strLen (dumps (JVal.obj kvs)) < 120 <;>
                simp [h1, h2, h3, h4, h5, h6, h7]

/-- Claim C3 (amended):  A successfully extracted record is marked suspicious
iff its (numeric) confidence is below the caller-configured threshold, or
the heuristic validator fires — where the validator's triggers are the ones
the claim lists (`characters`/`events` not a list, both empty, three or
more unreadable markers, serialized payload too short) *plus* the two
confidence triggers the code's validator contains: a missing or non-numeric
confidence, and a confidence below the fixed internal 0.55 threshold
regardless of the configured one. -/
theorem c3_suspicion_amended (thr : ℚ) (kvs : List (String × JVal)) :
    (suspicionStep thr kvs).1 = suspicious_amended thr kvs := by
  unfold suspicionStep suspicious_amended suspicious_claimed
  cases h : pyNum (jGet kvs "confidence") with
  | none => simp [validate_conf_none kvs h]
  | some c =>
      by_cases hc : c < thr
      · simp [hc]
      · simp only [hc, if_false, validate_conf_some kvs c h, Option.isNone_some]
        cases hvc : validator_claimed kvs <;> by_cases h55 : c < (11/20 : ℚ) <;>
          simp [hvc, h55, hc]

set_option maxRecDepth 40000 in
unseal Rat.mul Rat.inv Rat.add Rat.sub in
/-- Claim C3 (counterexample):  With a configured threshold of 0.3, the
record `c3facts` (confidence 0.5, non-empty character and event lists, a
long serialization, no unreadable markers) triggers none of the claim's
conditions, yet the code marks it suspicious via the validator's fixed
internal 0.55 threshold. -/
theorem c3_suspicion_counterexample :
    (suspicionStep (3/10) c3facts).1 = true ∧
      suspicious_claimed (3/10) c3facts = false := by
  exact ⟨by decide, by decide⟩

/-! ## C1: image source resolution -/

/-- Claim C1 (code bug):  An `<img>` element carrying a plain `src` attribute
and no `srcset` is skipped by the candidate extractor: the conditional
expression in src/app.py 377-384 binds looser than the `or`-chain, so the
whole chain yields `None` whenever `srcset` is absent.  The spec-modelled
priority resolver returns the `src` URL for the very same element. -/
theorem c1_plain_src_skipped :
    resolveSrc c1tag = none ∧
    get_page_images "https://site.example/article" [c1tag] = [] ∧
    resolveSrcSpec c1tag = some "https://site.example/comic/p1.jpg" := by
  exact ⟨by decide, by decide, by decide⟩

/-! ## C8: the episode chain walker -/

theorem episodesLoop_processed_le (site : Site) (n : Nat) :
    ∀ (rem ep : Nat) (cur : Option String) (acc : List Img) (p : Nat),
      (episodesLoop site n rem ep cur acc p).2 ≤ p + rem := by
  intro rem
  induction rem with
  | zero => intro ep cur acc p; simp [episodesLoop]
  | succ r ih =>
      intro ep cur acc p
      unfold episodesLoop
      dsimp only
      split
      · split
        · dsimp only
          omega
        · have := ih (ep + 1) (get_episode_images site (cur.getD "") ep).2
            (acc ++ (get_episode_images site (cur.getD "") ep).1) (p + 1)
          omega
      · dsimp only
        omega

/-- Claim C8:  For every site, starting URL and requested episode count
`n ≥ 1`, the walker processes at most `n` episodes (and terminates — the
embedded function is total by construction); and when the first episode it
processes exposes no next-episode link, it processes exactly one episode
and returns exactly that episode's images — early chain exhaustion is a
normal return, not an error. -/
theorem c8_walker_bounded (site : Site) (url : String) (n : Nat) (h1 : 1 ≤ n) :
    (get_multiple_episodes_images site url n).2 ≤ n ∧
    (url ≠ "" → (get_episode_images site url 1).2 = none →
      (get_multiple_episodes_images site url n).2 = 1 ∧
      (get_multiple_episodes_images site url n).1 = (get_episode_images site url 1).1) := by
  constructor
  · have := episodesLoop_processed_le site n n 1 (some url) [] 0
    simpa [get_multiple_episodes_images] using this
  · intro hurl hnext
    obtain ⟨m, rfl⟩ : ∃ m, n = m + 1 := ⟨n - 1, by omega⟩
    have hcur : pyTruthyOS (some url) = true := by simp [pyTruthyOS, hurl]
    cases m with
    | zero =>
        unfold get_multiple_episodes_images episodesLoop
        simp [hcur, hnext, episodesLoop, pyTruthyOS, hurl]
    | succ m' =>
        unfold get_multiple_episodes_images episodesLoop
        simp [hcur, hnext, pyTruthyOS, hurl]

/-- Witness for C8 at a concrete single-episode site. -/
theorem c8_walker_bounded_witness :
    (get_multiple_episodes_images c8site "https://h/ep1" 2).2 ≤ 2 ∧
    ("https://h/ep1" ≠ "" → (get_episode_images c8site "https://h/ep1" 1).2 = none →
      (get_multiple_episodes_images c8site "https://h/ep1" 2).2 = 1 ∧
      (get_multiple_episodes_images c8site "https://h/ep1" 2).1
        = (get_episode_images c8site "https://h/ep1" 1).1) :=
  c8_walker_bounded c8site "https://h/ep1" 2 (by decide)

/-! ## C6: the content-image filter -/

theorem filter_step_spec (env : FilterEnv) (m : Nat) (a out : Img)
    (h : filter_step env m a = some out) :
    ∃ d wh sd, env.download a.url = some d ∧ ¬ d = [] ∧ ¬ d.length < m ∧
      env.decode d = some wh ∧
      ¬ 3 < (if 0 < wh.2 then (wh.1 : ℚ) / (wh.2 : ℚ) else 0) ∧
      ¬ (wh.1 < 200 ∨ wh.2 < 200) ∧ env.preprocess d = some sd ∧
      out = a.withData d sd wh.1 wh.2 := by
  unfold filter_step at h
  cases hdl : env.download a.url with
  | none => simp [hdl] at h
  | some d =>
      simp only [hdl] at h
      by_cases hde : d = []
      · simp [hde] at h
      · rw [if_neg hde] at h
        by_cases hsz : d.length < m
        · simp [if_pos hsz] at h
        · rw [if_neg hsz] at h
          cases hdec : env.decode d with
          | none => simp [hdec] at h
          | some wh =>
              simp only [hdec] at h
              by_cases hasp : 3 < (if 0 < wh.2 then (wh.1 : ℚ) / (wh.2 : ℚ) else 0)
              · simp [if_pos hasp] at h
              · rw [if_neg hasp] at h
                by_cases hdim : wh.1 < 200 ∨ wh.2 < 200
                · simp [if_pos hdim] at h
                · rw [if_neg hdim] at h
                  cases hpre : env.preprocess d with
                  | none => simp [hpre] at h
                  | some sd =>
                      simp only [hpre] at h
                      exact ⟨d, wh, sd, rfl, hde, hsz, hdec, hasp, hdim, hpre,
                        (Option.some_inj.mp h).symm⟩

theorem filter_step_url (env : FilterEnv) (m : Nat) (img out : Img)
    (h : filter_step env m img = some out) : out.url = img.url := by
  obtain ⟨d, wh, sd, -, -, -, -, -, -, -, rfl⟩ := filter_step_spec env m img out h
  rfl

theorem filterMap_url_sublist (f : Img → Option Img)
    (hf : ∀ a b, f a = some b → b.url = a.url) (l : List Img) :
    ((l.filterMap f).map Img.url).Sublist (l.map Img.url) := by
  induction l with
  | nil => simp
  | cons a t ih =>
      rw [List.filterMap_cons]
      cases hfa : f a with
      | none =>
          rw [List.map_cons]
          exact ih.cons _
      | some b =>
          rw [List.map_cons, List.map_cons, hf a b hfa]
          exact ih.cons₂ _

/-- Claim C6:  Every image produced by the content-image filter has
`width ≥ 200`, `height ≥ 200`, an aspect ratio `width/height ≤ 3`, and a
byte size at least the configured minimum; candidates that fail any check,
fail to download, or fail to decode are skipped without aborting (the
function is total and processes every candidate); and the output is the
input order restricted to the survivors. -/
theorem c6_content_filter (env : FilterEnv) (min_size : Nat) (images : List Img) :
    (∀ out ∈ filter_manga_images env min_size images,
       ∃ w h sz, out.width = some w ∧ out.height = some h ∧ out.size = some sz ∧
         200 ≤ w ∧ 200 ≤ h ∧ (w : ℚ) / (h : ℚ) ≤ 3 ∧ min_size ≤ sz) ∧
    ((filter_manga_images env min_size images).map Img.url).Sublist
      (images.map Img.url) := by
  constructor
  · intro out hout
    rw [filter_manga_images, List.mem_filterMap] at hout
    obtain ⟨a, -, ha⟩ := hout
    obtain ⟨d, wh, sd, -, -, hsz, -, hasp, hdim, -, rfl⟩ :=
      filter_step_spec env min_size a out ha
    push_neg at hdim
    have hh : 0 < wh.2 := by omega
    rw [if_pos hh] at hasp
    exact ⟨wh.1, wh.2, d.length, rfl, rfl, rfl, by omega, by omega,
      le_of_not_lt hasp, by omega⟩
  · exact filterMap_url_sublist _ (filter_step_url env min_size) images

set_option maxRecDepth 40000 in
unseal Rat.mul Rat.inv Rat.add Rat.sub in
/-- Witness for C6 at a concrete surviving image. -/
theorem c6_content_filter_witness :
    ∃ w h sz,
      ((mkCand "https://h/c.jpg" "").withData [1, 2, 3] [9] 300 300).width = some w ∧
      ((mkCand "https://h/c.jpg" "").withData [1, 2, 3] [9] 300 300).height = some h ∧
      ((mkCand "https://h/c.jpg" "").withData [1, 2, 3] [9] 300 300).size = some sz ∧
      200 ≤ w ∧ 200 ≤ h ∧ (w : ℚ) / (h : ℚ) ≤ 3 ∧ 1 ≤ sz :=
  (c6_content_filter c6env 1 [mkCand "https://h/c.jpg" ""]).1
    ((mkCand "https://h/c.jpg" "").withData [1, 2, 3] [9] 300 300) (by decide)

/-! ## C2: URL deduplication across the traversal -/

theorem Img_tag_url (i : Img) (ep pg : Nat) : (i.tag ep pg).url = i.url := rfl

theorem addPageImages_eq (ep i : Nat) :
    ∀ (imgs : List Img) (seen : List String) (acc : List Img),
      addPageImages ep i imgs seen acc
        = (seenAfter seen (imgs.map (fun x => x.tag ep i)),
           acc ++ dedupByUrlAux seen (imgs.map (fun x => x.tag ep i))) := by
  intro imgs
  induction imgs with
  | nil => intro seen acc; simp [addPageImages, seenAfter, dedupByUrlAux]
  | cons x rest ih =>
      intro seen acc
      by_cases h : x.url ∈ seen <;>
        simp [addPageImages, seenAfter, dedupByUrlAux, Img_tag_url, h, ih,
          List.append_assoc]

theorem dedupByUrlAux_append (l1 : List Img) :
    ∀ (seen : List String) (l2 : List Img),
      dedupByUrlAux seen (l1 ++ l2)
        = dedupByUrlAux seen l1 ++ dedupByUrlAux (seenAfter seen l1) l2 := by
  induction l1 with
  | nil => intro seen l2; simp [dedupByUrlAux, seenAfter]
  | cons x rest ih =>
      intro seen l2
      by_cases h : x.url ∈ seen <;> simp [dedupByUrlAux, seenAfter, h, ih]

theorem epPagesLoop_images (site : Site) (ep : Nat) :
    ∀ (urls : List String) (i : Nat) (seen : List String) (acc : List Img)
      (next : Option String),
      (epPagesLoop site ep urls i seen acc next).1
        = acc ++ dedupByUrlAux seen (pagesStream site ep urls i) := by
  intro urls
  induction urls with
  | nil => intro i seen acc next; simp [epPagesLoop, pagesStream, dedupByUrlAux]
  | cons u rest ih =>
      intro i seen acc next
      unfold epPagesLoop pagesStream
      cases hf : site.fetch u with
      | none => simp [ih]
      | some pv =>
          dsimp only
          rw [addPageImages_eq]
          dsimp only
          rw [ih, dedupByUrlAux_append, List.append_assoc]

theorem get_episode_images_eq_dedup (site : Site) (url : String) (ep : Nat) :
    (get_episode_images site url ep).1 = dedupByUrl (episodeStream site url ep) := by
  unfold get_episode_images episodeStream dedupByUrl
  cases hf : site.fetch url with
  | none => rfl
  | some pv =>
      dsimp only
      rw [addPageImages_eq]
      dsimp only
      rw [epPagesLoop_images, dedupByUrlAux_append]
      simp

theorem dedupByUrlAux_nodup (l : List Img) :
    ∀ seen, ((dedupByUrlAux seen l).map Img.url).Nodup ∧
      ∀ u ∈ (dedupByUrlAux seen l).map Img.url, u ∉ seen := by
  induction l with
  | nil => intro seen; simp [dedupByUrlAux]
  | cons x rest ih =>
      intro seen
      by_cases h : x.url ∈ seen
      · simpa [dedupByUrlAux, h] using ih seen
      · have ih2 := ih (x.url :: seen)
        have hstep : dedupByUrlAux seen (x :: rest)
            = x :: dedupByUrlAux (x.url :: seen) rest := by
          simp [dedupByUrlAux, h]
        rw [hstep, List.map_cons]
        constructor
        · rw [List.nodup_cons]
          refine ⟨fun hmem => (ih2.2 x.url hmem) (List.mem_cons_self _ _), ih2.1⟩
        · intro u hu
          rcases List.mem_cons.mp hu with rfl | hu'
          · exact h
          · intro hseen
            exact (ih2.2 u hu') (List.mem_cons_of_mem _ hseen)

/-- Claim C2 (amended):  Within one episode the merged image list is exactly
the first-seen URL deduplication of the raw discovery stream — so it has
no two entries with the same URL, in first-seen discovery order.  The
content-image filter preserves URL uniqueness whenever its input has it.
(Across different episodes no deduplication is performed, so the merged
multi-episode list may repeat a URL — see the counterexample.) -/
theorem c2_dedup_amended :
    (∀ (site : Site) (url : String) (ep : Nat),
        (get_episode_images site url ep).1 = dedupByUrl (episodeStream site url ep)) ∧
    (∀ (site : Site) (url : String) (ep : Nat),
        ((get_episode_images site url ep).1.map Img.url).Nodup) ∧
    (∀ (env : FilterEnv) (m : Nat) (imgs : List Img),
        (imgs.map Img.url).Nodup →
        ((filter_manga_images env m imgs).map Img.url).Nodup) := by
  refine ⟨get_episode_images_eq_dedup, ?_, ?_⟩
  · intro site url ep
    rw [get_episode_images_eq_dedup]
    exact (dedupByUrlAux_nodup _ []).1
  · intro env m imgs h
    exact (filterMap_url_sublist _ (filter_step_url env m) imgs).nodup h

/-- Witness for C2 (amended) at concrete inputs. -/
theorem c2_dedup_amended_witness :
    (get_episode_images c2site "https://h/ep1" 1).1
        = dedupByUrl (episodeStream c2site "https://h/ep1" 1) ∧
    ((get_episode_images c2site "https://h/ep1" 1).1.map Img.url).Nodup ∧
    ((filter_manga_images c6env 1 [mkCand "https://h/a.jpg" "", mkCand "https://h/b.jpg" ""]).map
        Img.url).Nodup :=
  ⟨c2_dedup_amended.1 c2site "https://h/ep1" 1,
   c2_dedup_amended.2.1 c2site "https://h/ep1" 1,
   c2_dedup_amended.2.2 c6env 1 [mkCand "https://h/a.jpg" "", mkCand "https://h/b.jpg" ""]
     (by decide)⟩

set_option maxRecDepth 40000 in
unseal Rat.mul Rat.inv Rat.add Rat.sub in
/-- Claim C2 (counterexample):  Two episodes sharing an image URL: the merged
multi-episode candidate list repeats the URL, and the ContentImage set
produced from it repeats it too — the claimed global uniqueness invariant
fails across episodes. -/
theorem c2_dedup_counterexample :
    ¬ ((get_multiple_episodes_images c2site "https://h/ep1" 2).1.map Img.url).Nodup ∧
    ¬ ((filter_manga_images c2env 1
          (get_multiple_episodes_images c2site "https://h/ep1" 2).1).map Img.url).Nodup := by
  exact ⟨by decide, by decide⟩

/-! ## C7: pagination ranking -/

theorem mem_insertByKey {α : Type _} (key : α → Nat) (x : α) (l : List α) (a : α) :
    a ∈ insertByKey key x l ↔ a = x ∨ a ∈ l := by
  induction l with
  | nil => simp [insertByKey]
  | cons y ys ih =>
      unfold insertByKey
      by_cases h : key y < key x
      · simp only [h, if_true, List.mem_cons, ih]
        tauto
      · simp [h]

theorem pairwise_insertByKey {α : Type _} (key : α → Nat) (x : α) (l : List α)
    (hl : l.Pairwise (fun a b => key a ≤ key b)) :
    (insertByKey key x l).Pairwise (fun a b => key a ≤ key b) := by
  induction l with
  | nil => simp [insertByKey]
  | cons y ys ih =>
      rw [List.pairwise_cons] at hl
      unfold insertByKey
      by_cases h : key y < key x
      · rw [if_pos h, List.pairwise_cons]
        refine ⟨?_, ih hl.2⟩
        intro a ha
        rcases (mem_insertByKey key x ys a).1 ha with rfl | hmem
        · exact Nat.le_of_lt h
        · exact hl.1 a hmem
      · rw [if_neg h, List.pairwise_cons]
        refine ⟨?_, List.pairwise_cons.2 hl⟩
        intro a ha
        rcases List.mem_cons.mp ha with rfl | hmem
        · exact Nat.le_of_not_lt h
        · exact Nat.le_trans (Nat.le_of_not_lt h) (hl.1 a hmem)

theorem sortByKey_pairwise {α : Type _} (key : α → Nat) (l : List α) :
    (sortByKey key l).Pairwise (fun a b => key a ≤ key b) := by
  induction l with
  | nil => simp [sortByKey]
  | cons x xs ih => exact pairwise_insertByKey key x _ ih

theorem filter_insertByKey {α : Type _} (key : α → Nat) (x : α) (l : List α) (k : Nat) :
    (insertByKey key x l).filter (fun a => decide (key a = k))
      = if key x = k then x :: l.filter (fun a => decide (key a = k))
        else l.filter (fun a => decide (key a = k)) := by
  induction l with
  | nil => by_cases hx : key x = k <;> simp [insertByKey, hx]
  | cons y ys ih =>
      unfold insertByKey
      by_cases h : key y < key x
      · rw [if_pos h]
        by_cases hy : key y = k <;> by_cases hx : key x = k
        · omega
        · simp [List.filter_cons, hy, hx, ih]
        · simp [List.filter_cons, hy, hx, ih]
        · simp [List.filter_cons, hy, hx, ih]
      · rw [if_neg h]
        by_cases hx : key x = k <;> simp [List.filter_cons, hx]

theorem sortByKey_filter_stable {α : Type _} (key : α → Nat) (l : List α) (k : Nat) :
    (sortByKey key l).filter (fun a => decide (key a = k))
      = l.filter (fun a => decide (key a = k)) := by
  induction l with
  | nil => rfl
  | cons x xs ih =>
      unfold sortByKey
      rw [filter_insertByKey, ih]
      by_cases hx : key x = k <;> simp [List.filter_cons, hx]

theorem digitsToNat_append (ds : List Char) (c : Char) :
    digitsToNat (ds ++ [c]) = digitsToNat ds * 10 + (c.toNat - 48) := by
  unfold digitsToNat
  rw [List.foldl_append]
  rfl

theorem digitChar_spec (n : Nat) (h : n < 10) :
    (Char.ofNat (48 + n)).toNat - 48 = n ∧ (Char.ofNat (48 + n)).isDigit = true := by
  interval_cases n <;> exact ⟨by decide, by decide⟩

theorem natDigitsAux_spec : ∀ (fuel n : Nat), n < fuel →
    digitsToNat (natDigitsAux fuel n) = n ∧ natDigitsAux fuel n ≠ [] ∧
      ∀ c ∈ natDigitsAux fuel n, c.isDigit = true := by
  intro fuel
  induction fuel with
  | zero => intro n h; omega
  | succ f ih =>
      intro n h
      unfold natDigitsAux
      by_cases h10 : n < 10
      · rw [if_pos h10]
        refine ⟨?_, by simp, ?_⟩
        · have h1 : digitsToNat [Char.ofNat (48 + n)] = (Char.ofNat (48 + n)).toNat - 48 := by
            simp [digitsToNat]
          rw [h1]
          exact (digitChar_spec n h10).1
        · intro c hc
          rw [List.mem_singleton.mp hc]
          exact (digitChar_spec n h10).2
      · rw [if_neg h10]
        have hdiv : n / 10 < f := by omega
        have hrec := ih (n / 10) hdiv
        refine ⟨?_, by simp, ?_⟩
        · rw [digitsToNat_append, hrec.1, (digitChar_spec (n % 10) (by omega)).1]
          omega
        · intro c hc
          rcases List.mem_append.mp hc with hc1 | hc2
          · exact hrec.2.2 c hc1
          · rw [List.mem_singleton.mp hc2]
            exact (digitChar_spec (n % 10) (by omega)).2

theorem natDigits_spec (n : Nat) :
    digitsToNat (natDigits n) = n ∧ isDigits (String.mk (natDigits n)) = true := by
  have h := natDigitsAux_spec (n + 1) n (Nat.lt_succ_self n)
  refine ⟨h.1, ?_⟩
  unfold isDigits
  rw [Bool.and_eq_true, decide_eq_true_eq]
  constructor
  · intro heq
    exact h.2.1 (congrArg String.data heq)
  · rw [List.all_eq_true]
    intro c hc
    exact h.2.2 c hc

theorem extract_page_num_base (bp u : String)
    (h : rstripSlash (urlPathOf u) = bp) : extract_page_num bp u = 1 := by
  unfold extract_page_num
  simp [h]

theorem extract_page_num_digits (bp u : String) (n : Nat)
    (h : rstripSlash (urlPathOf u) = bp ++ "/" ++ String.mk (natDigits n)) :
    extract_page_num bp u = n := by
  have hlen1 : (bp ++ "/").data.length = bp.data.length + 1 := by
    simp [String.data_append]
  have hdata : (bp ++ "/" ++ String.mk (natDigits n)).data
      = (bp ++ "/").data ++ natDigits n := String.data_append _ _
  have hdrop : (bp ++ "/" ++ String.mk (natDigits n)).data.drop (bp.data.length + 1)
      = natDigits n := by
    rw [hdata]
    exact List.drop_left' hlen1
  have hne : ¬ (bp ++ "/" ++ String.mk (natDigits n) = bp) := by
    intro heq
    have hl := congrArg (fun s => s.data.length) heq
    simp only [hdata, List.length_append] at hl
    have hpos : 0 < (natDigits n).length :=
      List.length_pos.mpr (natDigitsAux_spec (n + 1) n (Nat.lt_succ_self n)).2.1
    omega
  have hpre : strStartsWith (bp ++ "/" ++ String.mk (natDigits n)) (bp ++ "/") = true := by
    unfold strStartsWith
    rw [List.isPrefixOf_iff_prefix, hdata]
    exact List.prefix_append _ _
  unfold extract_page_num
  simp only [h]
  rw [if_neg hne, if_pos hpre, hdrop, if_pos (natDigits_spec n).2]
  exact (natDigits_spec n).1

theorem extract_page_num_sentinel (bp u : String)
    (h1 : ¬ rstripSlash (urlPathOf u) = bp)
    (h2 : strStartsWith (rstripSlash (urlPathOf u)) (bp ++ "/") = true →
      isDigits (String.mk ((rstripSlash (urlPathOf u)).data.drop (bp.data.length + 1)))
        = false) :
    extract_page_num bp u = 999 := by
  unfold extract_page_num
  dsimp only
  rw [if_neg h1]
  by_cases hs : strStartsWith (rstripSlash (urlPathOf u)) (bp ++ "/") = true
  · rw [if_pos hs, if_neg]
    simp only [Bool.not_eq_true]
    exact h2 hs
  · rw [if_neg hs]

/-- Claim C7 (amended):  The pagination sort key ranks the base path 1, a
`basePath/<digits>` path by its integer value, and everything else with the
sentinel 999; the sort is ascending in this key and stable, so equal-rank
URLs (in particular all sentinel-ranked ones) keep discovery order, and a
numeric-suffix URL precedes an unranked one exactly when its number is
below the sentinel — a numeric suffix of 999 or more ties with or follows
the sentinel entries (see the counterexample). -/
theorem c7_page_ranking_amended :
    (∀ bp u, rstripSlash (urlPathOf u) = bp → extract_page_num bp u = 1) ∧
    (∀ bp u n, rstripSlash (urlPathOf u) = bp ++ "/" ++ String.mk (natDigits n) →
        extract_page_num bp u = n) ∧
    (∀ bp u, ¬ rstripSlash (urlPathOf u) = bp →
        (strStartsWith (rstripSlash (urlPathOf u)) (bp ++ "/") = true →
          isDigits (String.mk ((rstripSlash (urlPathOf u)).data.drop
            (bp.data.length + 1))) = false) →
        extract_page_num bp u = 999) ∧
    (∀ baseUrl urls,
        (sortPaginationUrls baseUrl urls).Pairwise
          (fun a b => extract_page_num (basePathOf baseUrl) a
            ≤ extract_page_num (basePathOf baseUrl) b)) ∧
    (∀ baseUrl urls k,
        (sortPaginationUrls baseUrl urls).filter
            (fun v => decide (extract_page_num (basePathOf baseUrl) v = k))
          = urls.filter
            (fun v => decide (extract_page_num (basePathOf baseUrl) v = k))) := by
  refine ⟨extract_page_num_base, extract_page_num_digits, extract_page_num_sentinel,
    ?_, ?_⟩
  · intro baseUrl urls
    exact sortByKey_pairwise _ urls
  · intro baseUrl urls k
    exact sortByKey_filter_stable _ urls k

/-- Witness for C7 (amended) at concrete URLs. -/
theorem c7_page_ranking_amended_witness :
    extract_page_num "/a" "https://h/a" = 1 ∧
    extract_page_num "/a" "https://h/a/12" = 12 ∧
    extract_page_num "/a" "https://h/a/xyz" = 999 :=
  ⟨c7_page_ranking_amended.1 "/a" "https://h/a" (by decide),
   c7_page_ranking_amended.2.1 "/a" "https://h/a/12" 12 (by decide),
   c7_page_ranking_amended.2.2.1 "/a" "https://h/a/xyz" (by decide) (by decide)⟩

/-- Claim C7 (counterexample):  A numeric suffix at or above the sentinel 999
does not sort before an unranked URL: `/a/1000` ranks 1000, the non-numeric
`/a/xyz` ranks 999, and the sort keeps the non-numeric URL first — refuting
the claim that every numeric-suffix URL sorts before every non-numeric
one. -/
theorem c7_sentinel_counterexample :
    extract_page_num "/a" "https://h/a/1000" = 1000 ∧
    extract_page_num "/a" "https://h/a/xyz" = 999 ∧
    sortPaginationUrls "https://h/a" ["https://h/a/xyz", "https://h/a/1000"]
      = ["https://h/a/xyz", "https://h/a/1000"] ∧
    ¬ sortPaginationUrls "https://h/a" ["https://h/a/xyz", "https://h/a/1000"]
      = ["https://h/a/1000", "https://h/a/xyz"] := by
  exact ⟨by decide, by decide, by decide, by decide⟩

/-! ## C5: the escalation stage -/

theorem extract_single_calls_le_one (oracle : Oracle) (c : Cache) (img : Img)
    (model title : String) (mt : Nat) :
    (extract_image_facts_single oracle c img model title mt).2.2 ≤ 1 := by
  unfold extract_image_facts_single
  cases hl : cacheLookup c (_image_cache_key img model "facts_v1") with
  | some v => simp [hl]
  | none =>
      simp only [hl]
      cases oracle model (factsContent img title) mt (1/5 : ℚ) with
      | error e => simp
      | ok tu =>
          dsimp only
          split <;> simp

theorem escalateLoop_length (oracle : Oracle) (images : List Img) (title fb : String)
    (mt : Nat) :
    ∀ (S : List Nat) (ext : List JVal) (ut : UsageTotals) (c : Cache),
      (escalateLoop oracle images title fb mt S ext ut c).extracted.length
        = ext.length := by
  intro S
  induction S with
  | nil => intro ext ut c; rfl
  | cons idx rest ih =>
      intro ext ut c
      unfold escalateLoop
      dsimp only
      cases h : (extract_image_facts_single oracle c (images.getD idx default)
          fb title mt).1 with
      | some facts => simpa using ih (ext.set idx facts) _ _
      | none => simpa using ih ext _ _

theorem escalateLoop_untouched (oracle : Oracle) (images : List Img)
    (title fb : String) (mt : Nat) :
    ∀ (S : List Nat) (ext : List JVal) (ut : UsageTotals) (c : Cache) (j : Nat),
      j ∉ S →
      (escalateLoop oracle images title fb mt S ext ut c).extracted[j]? = ext[j]? := by
  intro S
  induction S with
  | nil => intro ext ut c j _; rfl
  | cons idx rest ih =>
      intro ext ut c j hj
      have hji : j ≠ idx := fun e => hj (e ▸ List.mem_cons_self idx rest)
      have hjr : j ∉ rest := fun e => hj (List.mem_cons_of_mem _ e)
      unfold escalateLoop
      dsimp only
      cases h : (extract_image_facts_single oracle c (images.getD idx default)
          fb title mt).1 with
      | some facts =>
          dsimp only
          rw [ih (ext.set idx facts) _ _ j hjr, List.getElem?_set_ne (Ne.symm hji)]
      | none => exact ih ext _ _ j hjr

theorem escalateLoop_counts (oracle : Oracle) (images : List Img)
    (title fb : String) (mt : Nat) :
    ∀ (S : List Nat) (ext : List JVal) (ut : UsageTotals) (c : Cache),
      (escalateLoop oracle images title fb mt S ext ut c).escalated ≤ S.length ∧
      (escalateLoop oracle images title fb mt S ext ut c).calls ≤ S.length := by
  intro S
  induction S with
  | nil => intro ext ut c; exact ⟨Nat.le_refl 0, Nat.le_refl 0⟩
  | cons idx rest ih =>
      intro ext ut c
      have hone := extract_single_calls_le_one oracle c (images.getD idx default) fb title mt
      unfold escalateLoop
      dsimp only
      cases h : (extract_image_facts_single oracle c (images.getD idx default)
          fb title mt).1 with
      | some facts =>
          dsimp only
          have := ih (ext.set idx facts)
            (_add_usage_totals ut (jGetStrD (jObjKVs facts) "_model" "")
              (jGet (jObjKVs facts) "_usage"))
            (extract_image_facts_single oracle c (images.getD idx default) fb title mt).2.1
          constructor
          · have h1 := this.1
            simpa using Nat.add_le_add h1 (Nat.le_refl 1)
          · have h2 := this.2
            simpa using Nat.add_le_add h2 hone
      | none =>
          dsimp only
          have := ih ext ut
            (extract_image_facts_single oracle c (images.getD idx default) fb title mt).2.1
          constructor
          · exact Nat.le_succ_of_le this.1
          · simpa using Nat.add_le_add this.2 hone

theorem escalateLoop_replace (oracle : Oracle) (images : List Img)
    (title fb : String) (mt : Nat) :
    ∀ (S : List Nat) (ext : List JVal) (ut : UsageTotals) (c : Cache),
      S.Nodup → (∀ j ∈ S, j < ext.length) → ∀ j ∈ S,
      ∃ cmid : Cache,
        (escalateLoop oracle images title fb mt S ext ut c).extracted[j]?
          = (match (extract_image_facts_single oracle cmid (images.getD j default)
                fb title mt).1 with
             | some f => some f
             | none => ext[j]?) := by
  intro S
  induction S with
  | nil => intro ext ut c _ _ j hj; exact absurd hj (List.not_mem_nil j)
  | cons idx rest ih =>
      intro ext ut c hnd hrange j hj
      have hnd' := List.nodup_cons.mp hnd
      unfold escalateLoop
      dsimp only
      rcases List.mem_cons.mp hj with rfl | hjr
      · refine ⟨c, ?_⟩
        cases h : (extract_image_facts_single oracle c (images.getD j default)
            fb title mt).1 with
        | some facts =>
            dsimp only
            rw [escalateLoop_untouched oracle images title fb mt rest _ _ _ j hnd'.1,
              List.getElem?_set_self (hrange j hj)]
        | none =>
            dsimp only
            rw [escalateLoop_untouched oracle images title fb mt rest _ _ _ j hnd'.1]
      · have hne : idx ≠ j := fun e => hnd'.1 (e ▸ hjr)
        cases h : (extract_image_facts_single oracle c (images.getD idx default)
            fb title mt).1 with
        | some facts =>
            dsimp only
            obtain ⟨cmid, hc⟩ := ih (ext.set idx facts)
              (_add_usage_totals ut (jGetStrD (jObjKVs facts) "_model" "")
                (jGet (jObjKVs facts) "_usage"))
              (extract_image_facts_single oracle c (images.getD idx default)
                fb title mt).2.1
              hnd'.2
              (fun k hk => by
                rw [List.length_set]
                exact hrange k (List.mem_cons_of_mem _ hk))
              j hjr
            refine ⟨cmid, ?_⟩
            rw [hc]
            cases (extract_image_facts_single oracle cmid (images.getD j default)
                fb title mt).1 with
            | some f => rfl
            | none => rw [List.getElem?_set_ne hne]
        | none =>
            dsimp only
            exact ih ext ut _ hnd'.2
              (fun k hk => hrange k (List.mem_cons_of_mem _ hk)) j hjr

theorem escalateLoop_escalated_eq (oracle : Oracle) (images : List Img)
    (title fb : String) (mt : Nat) :
    ∀ (S : List Nat) (ext : List JVal) (ut : UsageTotals) (c : Cache),
      (escalateLoop oracle images title fb mt S ext ut c).escalated
        = ((escalateResults oracle images title fb mt S c).filter
            (fun r => r.isSome)).length := by
  intro S
  induction S with
  | nil => intro ext ut c; rfl
  | cons idx rest ih =>
      intro ext ut c
      unfold escalateLoop escalateResults
      dsimp only
      cases h : (extract_image_facts_single oracle c (images.getD idx default)
          fb title mt).1 with
      | some facts =>
          dsimp only
          rw [ih (ext.set idx facts)
            (_add_usage_totals ut (jGetStrD (jObjKVs facts) "_model" "")
              (jGet (jObjKVs facts) "_usage"))
            (extract_image_facts_single oracle c (images.getD idx default)
              fb title mt).2.1]
          simp [List.filter_cons]
      | none =>
          dsimp only
          rw [ih ext ut
            (extract_image_facts_single oracle c (images.getD idx default)
              fb title mt).2.1]
          simp [List.filter_cons]

theorem escalateLoop_replace_at (oracle : Oracle) (images : List Img)
    (title fb : String) (mt : Nat) :
    ∀ (S : List Nat) (ext : List JVal) (ut : UsageTotals) (c : Cache),
      S.Nodup → (∀ j ∈ S, j < ext.length) → ∀ i < S.length,
      (escalateLoop oracle images title fb mt S ext ut c).extracted[S.getD i 0]?
        = (match (escalateResults oracle images title fb mt S c).getD i none with
           | some f => some f
           | none => ext[S.getD i 0]?) := by
  intro S
  induction S with
  | nil => intro ext ut c _ _ i hi; exact absurd hi (by simp)
  | cons idx rest ih =>
      intro ext ut c hnd hrange i hi
      have hnd' := List.nodup_cons.mp hnd
      unfold escalateLoop escalateResults
      dsimp only
      cases h : (extract_image_facts_single oracle c (images.getD idx default)
          fb title mt).1 with
      | some facts =>
          dsimp only
          cases i with
          | zero =>
              simp only [List.getD_cons_zero]
              rw [escalateLoop_untouched oracle images title fb mt rest _ _ _ idx hnd'.1,
                List.getElem?_set_self (hrange idx (List.mem_cons_self idx rest))]
          | succ i' =>
              have hi' : i' < rest.length := Nat.lt_of_succ_lt_succ (by simpa using hi)
              simp only [List.getD_cons_succ]
              have hmem : rest.getD i' 0 ∈ rest := by
                rw [List.getD_eq_getElem?_getD, List.getElem?_eq_getElem hi']
                exact List.getElem_mem hi'
              have hne : idx ≠ rest.getD i' 0 := fun e => hnd'.1 (e ▸ hmem)
              rw [ih (ext.set idx facts)
                (_add_usage_totals ut (jGetStrD (jObjKVs facts) "_model" "")
                  (jGet (jObjKVs facts) "_usage"))
                (extract_image_facts_single oracle c (images.getD idx default)
                  fb title mt).2.1
                hnd'.2
                (fun k hk => by
                  rw [List.length_set]
                  exact hrange k (List.mem_cons_of_mem _ hk))
                i' hi']
              cases (escalateResults oracle images title fb mt rest
                  (extract_image_facts_single oracle c (images.getD idx default)
                    fb title mt).2.1).getD i' none with
              | some f => rfl
              | none => rw [List.getElem?_set_ne hne]
      | none =>
          dsimp only
          cases i with
          | zero =>
              simp only [List.getD_cons_zero]
              rw [escalateLoop_untouched oracle images title fb mt rest _ _ _ idx hnd'.1]
          | succ i' =>
              have hi' : i' < rest.length := Nat.lt_of_succ_lt_succ (by simpa using hi)
              simp only [List.getD_cons_succ]
              exact ih ext ut
                (extract_image_facts_single oracle c (images.getD idx default)
                  fb title mt).2.1
                hnd'.2
                (fun k hk => hrange k (List.mem_cons_of_mem _ hk)) i' hi'

/-- Claim C5:  In the escalation stage: the record list keeps its length and
only indices in the suspicion set are ever overwritten; when no fallback
model is configured (empty) or it equals the primary model, zero
escalations occur and no record changes; at most one escalation and one
external call happen per suspicious index; and with an active fallback,
each suspicious index ends up with the wholesale fallback record (its
provenance and usage included) when the fallback returned one, and with its
prior record untouched when the fallback returned `None`.  The last two
conjuncts pin the increment behaviour exactly: the escalation counter
equals the number of non-`None` results in the loop's cache-threaded
fallback-call trace (`escalateResults`), and the record at the i-th
suspicious index equals the i-th trace result when that result is
non-`None` and the prior record otherwise — so every non-`None` fallback
result overwrites its record in place and adds exactly one to the counter,
while every `None` result leaves both unchanged. -/
theorem c5_escalation (oracle : Oracle) (images : List Img) (title fb pm : String)
    (mt : Nat) (S : List Nat) (ext : List JVal) (ut : UsageTotals) (c : Cache)
    (hnd : S.Nodup) (hrange : ∀ j ∈ S, j < ext.length) :
    (escalateStage oracle images title fb pm mt S ext ut c).extracted.length
      = ext.length ∧
    (∀ j, j ∉ S →
      (escalateStage oracle images title fb pm mt S ext ut c).extracted[j]?
        = ext[j]?) ∧
    ((fb = "" ∨ fb = pm) →
      (escalateStage oracle images title fb pm mt S ext ut c).extracted = ext ∧
      (escalateStage oracle images title fb pm mt S ext ut c).escalated = 0) ∧
    (escalateStage oracle images title fb pm mt S ext ut c).escalated ≤ S.length ∧
    (escalateStage oracle images title fb pm mt S ext ut c).calls ≤ S.length ∧
    ((fb ≠ "" ∧ fb ≠ pm) → ∀ j ∈ S, ∃ cmid : Cache,
      (escalateStage oracle images title fb pm mt S ext ut c).extracted[j]?
        = (match (extract_image_facts_single oracle cmid (images.getD j default)
              fb title mt).1 with
           | some f => some f
           | none => ext[j]?)) ∧
    ((fb ≠ "" ∧ fb ≠ pm) →
      (escalateStage oracle images title fb pm mt S ext ut c).escalated
        = ((escalateResults oracle images title fb mt S c).filter
            (fun r => r.isSome)).length) ∧
    ((fb ≠ "" ∧ fb ≠ pm) → ∀ i < S.length,
      (escalateStage oracle images title fb pm mt S ext ut c).extracted[S.getD i 0]?
        = (match (escalateResults oracle images title fb mt S c).getD i none with
           | some f => some f
           | none => ext[S.getD i 0]?)) := by
  unfold escalateStage
  by_cases hg : fb ≠ "" ∧ fb ≠ pm
  · rw [if_pos hg]
    refine ⟨escalateLoop_length oracle images title fb mt S ext ut c,
      fun j hj => escalateLoop_untouched oracle images title fb mt S ext ut c j hj,
      ?_,
      (escalateLoop_counts oracle images title fb mt S ext ut c).1,
      (escalateLoop_counts oracle images title fb mt S ext ut c).2,
      fun _ => escalateLoop_replace oracle images title fb mt S ext ut c hnd hrange,
      fun _ => escalateLoop_escalated_eq oracle images title fb mt S ext ut c,
      fun _ => escalateLoop_replace_at oracle images title fb mt S ext ut c hnd hrange⟩
    intro hcontra
    rcases hcontra with h | h
    · exact absurd h hg.1
    · exact absurd h hg.2
  · rw [if_neg hg]
    exact ⟨rfl, fun j _ => rfl, fun _ => ⟨rfl, rfl⟩, Nat.zero_le _, Nat.zero_le _,
      fun h => absurd h hg, fun h => absurd h hg, fun h => absurd h hg⟩

/-- Witness for C5 at a concrete input (one suspicious index, an oracle
that always raises). -/
theorem c5_escalation_witness :
    (escalateStage failOracle [c5img] "" "opus" "sonnet" 700 [0] [JVal.null] []
        []).extracted.length = 1 ∧
    (∀ j, j ∉ [0] →
      (escalateStage failOracle [c5img] "" "opus" "sonnet" 700 [0] [JVal.null] []
          []).extracted[j]? = [JVal.null][j]?) ∧
    (("opus" = "" ∨ "opus" = "sonnet") →
      (escalateStage failOracle [c5img] "" "opus" "sonnet" 700 [0] [JVal.null] []
          []).extracted = [JVal.null] ∧
      (escalateStage failOracle [c5img] "" "opus" "sonnet" 700 [0] [JVal.null] []
          []).escalated = 0) ∧
    (escalateStage failOracle [c5img] "" "opus" "sonnet" 700 [0] [JVal.null] []
        []).escalated ≤ 1 ∧
    (escalateStage failOracle [c5img] "" "opus" "sonnet" 700 [0] [JVal.null] []
        []).calls ≤ 1 ∧
    (("opus" ≠ "" ∧ "opus" ≠ "sonnet") → ∀ j ∈ [0], ∃ cmid : Cache,
      (escalateStage failOracle [c5img] "" "opus" "sonnet" 700 [0] [JVal.null] []
          []).extracted[j]?
        = (match (extract_image_facts_single failOracle cmid
              ([c5img].getD j default) "opus" "" 700).1 with
           | some f => some f
           | none => [JVal.null][j]?)) ∧
    (("opus" ≠ "" ∧ "opus" ≠ "sonnet") →
      (escalateStage failOracle [c5img] "" "opus" "sonnet" 700 [0] [JVal.null] []
          []).escalated
        = ((escalateResults failOracle [c5img] "" "opus" 700 [0] []).filter
            (fun r => r.isSome)).length) ∧
    (("opus" ≠ "" ∧ "opus" ≠ "sonnet") → ∀ i < [0].length,
      (escalateStage failOracle [c5img] "" "opus" "sonnet" 700 [0] [JVal.null] []
          []).extracted[([0].getD i 0)]?
        = (match (escalateResults failOracle [c5img] "" "opus" 700 [0] []).getD i
              none with
           | some f => some f
           | none => [JVal.null][([0].getD i 0)]?)) :=
  c5_escalation failOracle [c5img] "" "opus" "sonnet" 700 [0] [JVal.null] [] []
    (by decide) (by decide)

end MangaApp
